import Mathlib

set_option maxHeartbeats 1000000

/-!
Verification of the neuroglancer viewer-state schema (viewer_state.py).

The pydantic models of the source are shallowly embedded as Lean structures,
and pydantic v1 validation is embedded as executable parsers from a JSON-like
document type `J` into those structures.  JSON numbers are modelled as exact
rationals; pydantic's lax cross-type coercions (e.g. bool to float, numeric
strings to int) are not modelled — inputs are assumed strictly typed, which is
the regime every claim under test quantifies over.  Serialization is not
present in the source repository and is modelled from the spec (see the
`serialize` definitions below).
-/

namespace NG

/-- JSON-like documents: the untyped input of the validator. -/
inductive J where
  | null
  | bool (b : Bool)
  | num (q : ℚ)
  | str (s : String)
  | arr (elems : List J)
  | obj (fields : List (String × J))

/-- True exactly on the JSON null document. -/
def J.isNull : J → Bool
  | .null => true
  | _ => false

/-- A structured validation error: the path of the offending field and a message. -/
structure VError where
  loc : List String
  msg : String
deriving DecidableEq, Repr

/-- Accumulated validation errors. -/
abbrev Errs := List VError

/-- Result of validating one fragment: a typed value or accumulated errors. -/
abbrev Vres (α : Type) := Except Errs α

/-- A single error at a given path. -/
def err1 {α : Type} (loc : List String) (msg : String) : Vres α :=
  .error [⟨loc, msg⟩]

/-- The error list carried by a result (empty on success). -/
def errsOf {α : Type} : Vres α → Errs
  | .ok _ => []
  | .error es => es

/-- Prefix every error location with the field name `k`. -/
def errAt {α : Type} (k : String) : Vres α → Vres α
  | .ok a => .ok a
  | .error es => .error (es.map (fun e => ⟨k :: e.loc, e.msg⟩))

/-- Combine two field results, accumulating errors from both (pydantic
validates every field and reports all failures together). -/
def vmerge {α β : Type} : Vres α → Vres β → Vres (α × β)
  | .ok a, .ok b => .ok (a, b)
  | .ok _, .error es => .error es
  | .error es, .ok _ => .error es
  | .error es, .error es2 => .error (es ++ es2)

/-- Add the unknown-key errors of a closed-world model (`Extra.forbid`) to the
result of validating its declared fields. -/
def withExtra {α : Type} (extra : Errs) : Vres α → Vres α
  | .ok a =>
    match extra with
    | [] => .ok a
    | es => .error es
  | .error es => .error (es ++ extra)

/-- First value bound to key `k` in a JSON object. -/
def getKey : List (String × J) → String → Option J
  | [], _ => none
  | (k, v) :: rest, key => if k = key then some v else getKey rest key

/-- Unknown-key errors of `Extra.forbid`: one error per key that is not a
declared field. -/
def extraErrs (kvs : List (String × J)) (allowed : List String) : Errs :=
  kvs.filterMap fun p =>
    if allowed.contains p.1 then none else some ⟨[p.1], "extra fields not permitted"⟩

/-- A required field (no default, not `Optional`): absent is an error. -/
def reqFieldVal {α : Type} (k : String) (p : J → Vres α) : Option J → Vres α
  | none => err1 [k] "field required"
  | some jv => errAt k (p jv)

/-- An `Optional[T]` field with declared default `dflt` (`none` when the
source writes no default): absent yields the default, an explicit null yields
`None`, anything else is validated by `p`. -/
def optFieldVal {α : Type} (k : String) (p : J → Vres α) (dflt : Option α) :
    Option J → Vres (Option α)
  | none => .ok dflt
  | some jv => if jv.isNull then .ok none else errAt k ((p jv).map some)

/-- A non-`Optional` field with a declared default (e.g. `opacity: float = 0.05`):
absent yields the default, null is rejected by `p` itself. -/
def dfltFieldVal {α : Type} (k : String) (p : J → Vres α) (d : α) : Option J → Vres α
  | none => .ok d
  | some jv => errAt k (p jv)

/-- Assemble a serialized object from per-field optional emissions:
fields encoded as `none` are omitted from the document. -/
def mkObj : List (String × Option J) → List (String × J)
  | [] => []
  | (_, none) :: rest => mkObj rest
  | (k, some v) :: rest => (k, v) :: mkObj rest

/-- Serialization of an `Optional` field with declared default `dflt`:
omitted when the value equals the default, null for an explicit `None`. -/
def encOpt {α : Type} [DecidableEq α] (pr : α → J) (dflt : Option α) (v : Option α) :
    Option J :=
  if v = dflt then none
  else some (match v with | none => J.null | some a => pr a)

/-- Serialization of a required field: always emitted. -/
def encReq {α : Type} (pr : α → J) (v : α) : Option J := some (pr v)

/-- Serialization of a non-`Optional` defaulted field: omitted at the default. -/
def encDflt {α : Type} [DecidableEq α] (pr : α → J) (d : α) (v : α) : Option J :=
  if v = d then none else some (pr v)

/-! ### Generic lemmas about the combinators -/

@[simp] theorem errAt_ok {α : Type} (k : String) (a : α) : errAt k (.ok a) = .ok a := rfl

@[simp] theorem vresMap_ok {α β : Type} (f : α → β) (a : α) :
    (Except.map f (.ok a) : Vres β) = .ok (f a) := rfl

@[simp] theorem vresMap_error {α β : Type} (f : α → β) (es : Errs) :
    (Except.map f (.error es) : Vres β) = .error es := rfl

@[simp] theorem vmerge_ok_ok {α β : Type} (a : α) (b : β) :
    vmerge (.ok a) (.ok b) = .ok (a, b) := rfl

@[simp] theorem withExtra_nil {α : Type} (r : Vres α) : withExtra [] r = r := by
  cases r <;> simp [withExtra]

@[simp] theorem getKey_nil (key : String) : getKey [] key = none := rfl

@[simp] theorem mkObj_nil : mkObj [] = [] := rfl

@[simp] theorem getKey_mkObj_ne {k key : String} (o : Option J) (r : List (String × Option J))
    (h : k ≠ key) : getKey (mkObj ((k, o) :: r)) key = getKey (mkObj r) key := by
  cases o <;> simp [mkObj, getKey, h]

@[simp] theorem getKey_mkObj_self {key : String} (o : Option J) (r : List (String × Option J))
    (h : getKey (mkObj r) key = none) : getKey (mkObj ((key, o) :: r)) key = o := by
  cases o <;> simp [mkObj, getKey, h]

@[simp] theorem extraErrs_nil (allowed : List String) :
    extraErrs [] allowed = [] := rfl

@[simp] theorem extraErrs_mkObj_nil (allowed : List String) :
    extraErrs (mkObj []) allowed = [] := rfl

@[simp] theorem extraErrs_mkObj_cons {k : String} (o : Option J) (r : List (String × Option J))
    (allowed : List String) (h : allowed.contains k = true) :
    extraErrs (mkObj ((k, o) :: r)) allowed = extraErrs (mkObj r) allowed := by
  have hm : k ∈ allowed := by simpa using h
  cases o <;> simp [mkObj, extraErrs, hm]

/-! Round-trip lemmas for the three field kinds: validating the serialized form
of a field recovers the field's value. -/

@[simp] theorem reqFieldVal_some {α : Type} (k : String) (p : J → Vres α) (jv : J) :
    reqFieldVal k p (some jv) = errAt k (p jv) := rfl

@[simp] theorem reqFieldVal_none {α : Type} (k : String) (p : J → Vres α) :
    reqFieldVal k p none = err1 [k] "field required" := rfl

@[simp] theorem optFieldVal_none {α : Type} (k : String) (p : J → Vres α)
    (dflt : Option α) : optFieldVal k p dflt none = .ok dflt := rfl

@[simp] theorem dfltFieldVal_none {α : Type} (k : String) (p : J → Vres α) (d : α) :
    dfltFieldVal k p d none = .ok d := rfl

@[simp] theorem reqFieldVal_enc {α : Type} (k : String) (p : J → Vres α) (pr : α → J)
    (hp : ∀ a, p (pr a) = .ok a) (v : α) :
    reqFieldVal k p (encReq pr v) = .ok v := by
  simp [reqFieldVal, encReq, hp]

@[simp] theorem optFieldVal_enc {α : Type} [DecidableEq α] (k : String) (p : J → Vres α)
    (pr : α → J) (dflt : Option α)
    (hp : ∀ a, p (pr a) = .ok a) (hn : ∀ a, (pr a).isNull = false) (v : Option α) :
    optFieldVal k p dflt (encOpt pr dflt v) = .ok v := by
  by_cases h : v = dflt
  · simp [encOpt, h, optFieldVal]
  · cases v with
    | none => simp [encOpt, h, optFieldVal, J.isNull]
    | some a => simp [encOpt, h, optFieldVal, hn, hp]

@[simp] theorem dfltFieldVal_enc {α : Type} [DecidableEq α] (k : String) (p : J → Vres α)
    (pr : α → J) (d : α) (hp : ∀ a, p (pr a) = .ok a) (v : α) :
    dfltFieldVal k p d (encDflt pr d v) = .ok v := by
  by_cases h : v = d
  · simp [encDflt, h, dfltFieldVal]
  · simp [encDflt, h, dfltFieldVal, hp]

/-! Inversion lemmas: from a successful composite validation, recover the
success of every component. -/

theorem vmerge_ok_iff {α β : Type} {r1 : Vres α} {r2 : Vres β} {p : α × β} :
    vmerge r1 r2 = .ok p ↔ r1 = .ok p.1 ∧ r2 = .ok p.2 := by
  cases r1 <;> cases r2 <;> simp [vmerge, Prod.ext_iff]

theorem withExtra_ok_iff {α : Type} {extra : Errs} {r : Vres α} {a : α} :
    withExtra extra r = .ok a ↔ extra = [] ∧ r = .ok a := by
  cases r with
  | ok b => cases extra <;> simp [withExtra]
  | error es => simp [withExtra]

theorem vresMap_ok_iff {α β : Type} {f : α → β} {r : Vres α} {b : β} :
    Except.map f r = .ok b ↔ ∃ a, r = .ok a ∧ f a = b := by
  cases r <;> simp [Except.map]

theorem extraErrs_eq_nil_iff {kvs : List (String × J)} {allowed : List String} :
    extraErrs kvs allowed = [] ↔ ∀ p ∈ kvs, allowed.contains p.1 = true := by
  simp only [extraErrs, List.filterMap_eq_nil_iff]
  constructor
  · intro h p hp
    by_contra hc
    have := h p hp
    simp [hc] at this
    exact hc (by simpa using this)
  · intro h p hp
    have : p.1 ∈ allowed := by simpa using h p hp
    simp [this]

theorem vmerge_error_left {α β : Type} (es : Errs) (r : Vres β) :
    vmerge (.error es : Vres α) r = .error (es ++ errsOf r) := by
  cases r <;> simp [vmerge, errsOf]

theorem vmerge_error_right {α β : Type} (r : Vres α) (es : Errs) :
    vmerge r (.error es : Vres β) = .error (errsOf r ++ es) := by
  cases r <;> simp [vmerge, errsOf]

theorem withExtra_error {α : Type} (extra : Errs) (es : Errs) :
    withExtra extra (.error es : Vres α) = .error (es ++ extra) := rfl

theorem withExtra_cons {α : Type} (e : VError) (es : Errs) (r : Vres α) :
    withExtra (e :: es) r = .error (errsOf r ++ e :: es) := by
  cases r <;> simp [withExtra, errsOf]

/-! ### Primitive validators and serializers -/

/-- Validator for `str` fields. -/
def pStr : J → Vres String
  | .str s => .ok s
  | _ => err1 [] "str type expected"

/-- Validator for `bool` fields. -/
def pBool : J → Vres Bool
  | .bool b => .ok b
  | _ => err1 [] "value could not be parsed to a boolean"

/-- Validator for `float` fields (any JSON number). -/
def pFloat : J → Vres ℚ
  | .num q => .ok q
  | _ => err1 [] "value is not a valid float"

/-- Validator for `int` fields (a JSON number denoting an integer). -/
def pInt : J → Vres ℤ
  | .num q => if q.den = 1 then .ok q.num else err1 [] "value is not a valid integer"
  | _ => err1 [] "value is not a valid integer"

/-- Validator for a closed set of string literals, as a subtype of `String`. -/
def pLitOf (lits : List String) : J → Vres {s : String // lits.contains s = true}
  | .str s =>
    if h : lits.contains s = true then .ok ⟨s, h⟩
    else err1 [] "unexpected literal value"
  | _ => err1 [] "unexpected literal value"

def prStr (s : String) : J := .str s
def prBool (b : Bool) : J := .bool b
def prFloat (q : ℚ) : J := .num q
def prInt (i : ℤ) : J := .num (i : ℚ)
def prLitOf {lits : List String} (s : {s : String // lits.contains s = true}) : J :=
  .str s.val

@[simp] theorem pStr_prStr (s : String) : pStr (prStr s) = .ok s := rfl
@[simp] theorem pBool_prBool (b : Bool) : pBool (prBool b) = .ok b := rfl
@[simp] theorem pFloat_prFloat (q : ℚ) : pFloat (prFloat q) = .ok q := rfl
@[simp] theorem pInt_prInt (i : ℤ) : pInt (prInt i) = .ok i := by
  simp [pInt, prInt, Rat.den_intCast, Rat.num_intCast]
@[simp] theorem pLitOf_prLitOf (lits : List String)
    (s : {s : String // lits.contains s = true}) : pLitOf lits (prLitOf s) = .ok s := by
  obtain ⟨v, hv⟩ := s
  have hm : v ∈ lits := by simpa using hv
  simp [pLitOf, prLitOf, hm]

@[simp] theorem prStr_isNull (s : String) : (prStr s).isNull = false := rfl
@[simp] theorem prBool_isNull (b : Bool) : (prBool b).isNull = false := rfl
@[simp] theorem prFloat_isNull (q : ℚ) : (prFloat q).isNull = false := rfl
@[simp] theorem prInt_isNull (i : ℤ) : (prInt i).isNull = false := rfl
@[simp] theorem prLitOf_isNull {lits : List String}
    (s : {s : String // lits.contains s = true}) : (prLitOf s).isNull = false := rfl

/-! ### Lists, tuples and string-keyed dicts -/

/-- Validate the elements of a JSON array, accumulating errors of every
element, locating each by its index. -/
def parseElems {α : Type} (p : J → Vres α) : Nat → List J → Vres (List α)
  | _, [] => .ok []
  | i, x :: rest =>
    (vmerge (errAt (toString i) (p x)) (parseElems p (i + 1) rest)).map
      fun t => t.1 :: t.2

/-- Validator for `List[T]` fields. -/
def pList {α : Type} (p : J → Vres α) : J → Vres (List α)
  | .arr xs => parseElems p 0 xs
  | _ => err1 [] "value is not a valid list"

def prList {α : Type} (pr : α → J) (l : List α) : J := .arr (l.map pr)

theorem parseElems_map {α : Type} (p : J → Vres α) (pr : α → J)
    (hp : ∀ a, p (pr a) = .ok a) (l : List α) :
    ∀ i, parseElems p i (l.map pr) = .ok l := by
  induction l with
  | nil => intro i; rfl
  | cons a rest ih =>
    intro i
    simp [parseElems, hp, ih (i + 1)]

@[simp] theorem pList_prList {α : Type} (p : J → Vres α) (pr : α → J)
    (hp : ∀ a, p (pr a) = .ok a) (l : List α) : pList p (prList pr l) = .ok l := by
  simp [pList, prList, parseElems_map p pr hp]

@[simp] theorem prList_isNull {α : Type} (pr : α → J) (l : List α) :
    (prList pr l).isNull = false := rfl

/-- Validate the entries of a string-keyed `Dict[str, T]`, accumulating all
entry errors, located by key. -/
def parseEntries {α : Type} (p : J → Vres α) : List (String × J) → Vres (List (String × α))
  | [] => .ok []
  | (k, v) :: rest =>
    (vmerge (errAt k (p v)) (parseEntries p rest)).map fun t => (k, t.1) :: t.2

/-- Validator for `Dict[str, T]` fields (an association list, order kept). -/
def pDict {α : Type} (p : J → Vres α) : J → Vres (List (String × α))
  | .obj kvs => parseEntries p kvs
  | _ => err1 [] "value is not a valid dict"

def prDict {α : Type} (pr : α → J) (m : List (String × α)) : J :=
  .obj (m.map fun kv => (kv.1, pr kv.2))

theorem parseEntries_map {α : Type} (p : J → Vres α) (pr : α → J)
    (hp : ∀ a, p (pr a) = .ok a) (m : List (String × α)) :
    parseEntries p (m.map fun kv => (kv.1, pr kv.2)) = .ok m := by
  induction m with
  | nil => rfl
  | cons kv rest ih => simp [parseEntries, hp, ih]

@[simp] theorem pDict_prDict {α : Type} (p : J → Vres α) (pr : α → J)
    (hp : ∀ a, p (pr a) = .ok a) (m : List (String × α)) :
    pDict p (prDict pr m) = .ok m := by
  simp [pDict, prDict, parseEntries_map p pr hp]

@[simp] theorem prDict_isNull {α : Type} (pr : α → J) (m : List (String × α)) :
    (prDict pr m).isNull = false := rfl

/-! ### Decimal keys for int-keyed dicts

JSON object keys are strings; pydantic coerces them back to `int` for
`Dict[int, ...]` fields.  The codec below is the decimal reading/printing pair
used for those keys, with its round-trip proof. -/

/-- The decimal digit character for `d` (meaningful for `d < 10`). -/
def digitToChar (d : ℕ) : Char := Char.ofNat (48 + d)

/-- Convert a decimal digit character back to its value. -/
def charToDigit? (c : Char) : Option ℕ :=
  if 48 ≤ c.toNat ∧ c.toNat ≤ 57 then some (c.toNat - 48) else none

theorem charToDigit_digitToChar {d : ℕ} (h : d < 10) :
    charToDigit? (digitToChar d) = some d := by
  interval_cases d <;> decide

/-- Big-endian decimal digit characters of a natural number. -/
def natChars (n : ℕ) : List Char :=
  if n = 0 then [digitToChar 0] else ((Nat.digits 10 n).map digitToChar).reverse

/-- Read a nonempty list of decimal digit characters (big-endian). -/
def natOfChars? (cs : List Char) : Option ℕ :=
  if cs.isEmpty then none
  else (cs.mapM charToDigit?).map fun ds => Nat.ofDigits 10 ds.reverse

theorem mapM_map_some {α β : Type} (f : β → Option α) (g : α → β) (l : List α)
    (h : ∀ a ∈ l, f (g a) = some a) : (l.map g).mapM f = some l := by
  induction l with
  | nil => rfl
  | cons a rest ih =>
    simp only [List.map_cons, List.mapM_cons, h a (by simp),
      ih fun x hx => h x (by simp [hx]), Option.pure_def, Option.bind_eq_bind,
      Option.some_bind]

theorem natOfChars_natChars (n : ℕ) : natOfChars? (natChars n) = some n := by
  by_cases h0 : n = 0
  · subst h0; decide
  · have hne : Nat.digits 10 n ≠ [] := Nat.digits_ne_nil_iff_ne_zero.mpr h0
    have hmap : ((Nat.digits 10 n).map digitToChar).mapM charToDigit? =
        some (Nat.digits 10 n) :=
      mapM_map_some _ _ _ fun d hd =>
        charToDigit_digitToChar (Nat.digits_lt_base (by norm_num) hd)
    have hchars : natChars n = ((Nat.digits 10 n).map digitToChar).reverse := by
      simp [natChars, h0]
    rw [hchars]
    have hne2 : (((Nat.digits 10 n).map digitToChar).reverse).isEmpty = false := by
      simp [List.isEmpty_eq_false, List.reverse_eq_nil_iff, List.map_eq_nil_iff, hne]
    simp only [natOfChars?, hne2, Bool.false_eq_true, if_false]
    rw [← List.map_reverse, mapM_map_some _ _ _ fun d hd =>
      charToDigit_digitToChar (Nat.digits_lt_base (by norm_num) (List.mem_reverse.mp hd))]
    simp [Nat.ofDigits_digits]

/-- Every character printed for a natural number is a decimal digit, hence
never the minus sign. -/
theorem natChars_ne_minus (n : ℕ) : ∀ c ∈ natChars n, c ≠ '-' := by
  intro c hc
  by_cases h0 : n = 0
  · subst h0; simp [natChars] at hc; subst hc; decide
  · simp only [natChars, h0, if_false, List.mem_reverse, List.mem_map] at hc
    obtain ⟨d, hd, rfl⟩ := hc
    have : d < 10 := Nat.digits_lt_base (by norm_num) hd
    interval_cases d <;> decide

/-- Serialize an `int` dict key as its decimal string. -/
def intKeyStr (i : ℤ) : String :=
  match i with
  | .ofNat n => ⟨natChars n⟩
  | .negSucc n => ⟨'-' :: natChars (n + 1)⟩

/-- Read an `int` dict key from its decimal string. -/
def strToInt? (s : String) : Option ℤ :=
  match s.data with
  | [] => none
  | c :: rest =>
    if c = '-' then (natOfChars? rest).map fun n => -(n : ℤ)
    else (natOfChars? (c :: rest)).map fun n => (n : ℤ)

theorem natChars_ne_nil (n : ℕ) : natChars n ≠ [] := by
  by_cases h0 : n = 0
  · simp [natChars, h0]
  · simp only [natChars, h0, if_false]
    simp [List.reverse_eq_nil_iff, List.map_eq_nil_iff, Nat.digits_ne_nil_iff_ne_zero, h0]

theorem strToInt_intKeyStr (i : ℤ) : strToInt? (intKeyStr i) = some i := by
  match i with
  | .ofNat n =>
    obtain ⟨c, cs, hcons⟩ := List.exists_cons_of_ne_nil (natChars_ne_nil n)
    have hcne : c ≠ '-' := natChars_ne_minus n c (by rw [hcons]; simp)
    rw [intKeyStr, strToInt?]
    simp only [hcons]
    rw [if_neg hcne, ← hcons, natOfChars_natChars]
    rfl
  | .negSucc n =>
    rw [intKeyStr, strToInt?]
    simp only [if_pos rfl, natOfChars_natChars]
    simp [Int.negSucc_eq]

/-- Validate the entries of an int-keyed `Dict[int, T]`: each JSON key must
read as a decimal integer. -/
def parseIntEntries {α : Type} (p : J → Vres α) :
    List (String × J) → Vres (List (ℤ × α))
  | [] => .ok []
  | (k, v) :: rest =>
    (vmerge
      (match strToInt? k with
       | none => err1 [k] "value is not a valid integer"
       | some i => (errAt k (p v)).map fun a => (i, a))
      (parseIntEntries p rest)).map fun t => t.1 :: t.2

/-- Validator for `Dict[int, T]` fields. -/
def pIntDict {α : Type} (p : J → Vres α) : J → Vres (List (ℤ × α))
  | .obj kvs => parseIntEntries p kvs
  | _ => err1 [] "value is not a valid dict"

def prIntDict {α : Type} (pr : α → J) (m : List (ℤ × α)) : J :=
  .obj (m.map fun kv => (intKeyStr kv.1, pr kv.2))

theorem parseIntEntries_map {α : Type} (p : J → Vres α) (pr : α → J)
    (hp : ∀ a, p (pr a) = .ok a) (m : List (ℤ × α)) :
    parseIntEntries p (m.map fun kv => (intKeyStr kv.1, pr kv.2)) = .ok m := by
  induction m with
  | nil => rfl
  | cons kv rest ih => simp [parseIntEntries, strToInt_intKeyStr, hp, ih]

@[simp] theorem pIntDict_prIntDict {α : Type} (p : J → Vres α) (pr : α → J)
    (hp : ∀ a, p (pr a) = .ok a) (m : List (ℤ × α)) :
    pIntDict p (prIntDict pr m) = .ok m := by
  simp [pIntDict, prIntDict, parseIntEntries_map p pr hp]

@[simp] theorem prIntDict_isNull {α : Type} (pr : α → J) (m : List (ℤ × α)) :
    (prIntDict pr m).isNull = false := rfl

/-- Validator for `Tuple[float, float]`. -/
def pPairQ : J → Vres (ℚ × ℚ)
  | .arr [.num a, .num b] => .ok (a, b)
  | _ => err1 [] "value is not a valid 2-tuple of floats"

/-- Validator for `Tuple[float, float, float]` (`PointType`). -/
def pTripleQ : J → Vres (ℚ × ℚ × ℚ)
  | .arr [.num a, .num b, .num c] => .ok (a, b, c)
  | _ => err1 [] "value is not a valid 3-tuple of floats"

/-- Validator for `Tuple[float, float, float, float]` (`Quaternion`). -/
def pQuadQ : J → Vres (ℚ × ℚ × ℚ × ℚ)
  | .arr [.num a, .num b, .num c, .num d] => .ok (a, b, c, d)
  | _ => err1 [] "value is not a valid 4-tuple of floats"

/-- Validator for `Tuple[float, str]` (numeric scale and unit). -/
def pPairFS : J → Vres (ℚ × String)
  | .arr [.num a, .str u] => .ok (a, u)
  | _ => err1 [] "value is not a valid (scale, unit) tuple"

def prPairQ (v : ℚ × ℚ) : J := .arr [.num v.1, .num v.2]
def prTripleQ (v : ℚ × ℚ × ℚ) : J := .arr [.num v.1, .num v.2.1, .num v.2.2]
def prQuadQ (v : ℚ × ℚ × ℚ × ℚ) : J :=
  .arr [.num v.1, .num v.2.1, .num v.2.2.1, .num v.2.2.2]
def prPairFS (v : ℚ × String) : J := .arr [.num v.1, .str v.2]

@[simp] theorem pPairQ_prPairQ (v : ℚ × ℚ) : pPairQ (prPairQ v) = .ok v := rfl
@[simp] theorem pTripleQ_prTripleQ (v : ℚ × ℚ × ℚ) : pTripleQ (prTripleQ v) = .ok v := rfl
@[simp] theorem pQuadQ_prQuadQ (v : ℚ × ℚ × ℚ × ℚ) : pQuadQ (prQuadQ v) = .ok v := rfl
@[simp] theorem pPairFS_prPairFS (v : ℚ × String) : pPairFS (prPairFS v) = .ok v := rfl

@[simp] theorem prPairQ_isNull (v : ℚ × ℚ) : (prPairQ v).isNull = false := rfl
@[simp] theorem prTripleQ_isNull (v : ℚ × ℚ × ℚ) : (prTripleQ v).isNull = false := rfl
@[simp] theorem prQuadQ_isNull (v : ℚ × ℚ × ℚ × ℚ) : (prQuadQ v).isNull = false := rfl
@[simp] theorem prPairFS_isNull (v : ℚ × String) : (prPairFS v).isNull = false := rfl

/-! ### Type aliases and literal sets of the source -/

/-- Source: `PointType = Tuple[float, float, float]`. -/
abbrev PointType := ℚ × ℚ × ℚ

/-- Source: `Quaternion = Tuple[float, float, float, float]`. -/
abbrev Quaternion := ℚ × ℚ × ℚ × ℚ

/-- Source: `NavigationLinkType = Literal["linked", "unlinked", "relative"]`. -/
def navigationLinkLits : List String := ["linked", "unlinked", "relative"]

abbrev NavigationLinkType := {s : String // navigationLinkLits.contains s = true}

def linkedLit : NavigationLinkType := ⟨"linked", rfl⟩

/-- Source: the members of `ToolNameEnum`. -/
def toolNameLits : List String :=
  ["annotatePoint", "annotateLine", "annotateBoundingBox", "annotateSphere",
   "blend", "opacity", "crossSectionRenderScale", "selectedAlpha",
   "notSelectedAlpha", "objectAlpha", "hideSegmentZero", "baseSegmentColoring",
   "ignoreNullVisibleSet", "colorSeed", "segmentDefaultColor", "meshRenderScale",
   "saturation", "skeletonRendering.mode2d", "skeletonRendering.lineWidth2d",
   "skeletonRendering.lineWidth3d", "shaderControl", "mergeSegments",
   "splitSegments", "selectSegments"]

abbrev ToolNameEnum := {s : String // toolNameLits.contains s = true}

/-- Source: `StackLayout.type = Literal["row", "column"]`. -/
def stackTypeLits : List String := ["row", "column"]

abbrev StackType := {s : String // stackTypeLits.contains s = true}

/-! ### Linked

Source: `class Linked(GenericModel, Generic[T])` — note it extends
`GenericModel`, not the `Extra.forbid` base `Model`, so (with pydantic's
default `Extra.ignore`) unknown keys inside a `Linked` object are ignored,
and a non-object input is rejected. -/

structure Linked (T : Type) where
  link : Option NavigationLinkType
  value : Option T
deriving DecidableEq

/-- Validation of `Linked[T]`: an object whose `link` defaults to "linked"
and whose `value` is validated by `pT`.  No closed-world check (see above). -/
def parseLinked {T : Type} (pT : J → Vres T) : J → Vres (Linked T)
  | .obj kvs =>
    (vmerge
      (optFieldVal "link" (pLitOf navigationLinkLits) (some linkedLit) (getKey kvs "link"))
      (optFieldVal "value" pT none (getKey kvs "value"))).map
      fun t => ⟨t.1, t.2⟩
  | _ => err1 [] "value is not a valid dict"

/-- Modelled from the spec: serialization of a `Linked[T]` value (the source
repository contains no serializer; §4.7 requires the structural inverse that
omits fields equal to their declared default). -/
def serializeLinked {T : Type} [DecidableEq T] (prT : T → J) (l : Linked T) : J :=
  .obj (mkObj
    [("link", encOpt prLitOf (some linkedLit) l.link),
     ("value", encOpt prT none l.value)])

theorem parseLinked_serializeLinked {T : Type} [DecidableEq T]
    (pT : J → Vres T) (prT : T → J)
    (hp : ∀ a, pT (prT a) = .ok a) (hn : ∀ a, (prT a).isNull = false)
    (l : Linked T) : parseLinked pT (serializeLinked prT l) = .ok l := by
  obtain ⟨link, value⟩ := l
  simp only [serializeLinked, parseLinked]
  simp +decide [hp, hn]

@[simp] theorem serializeLinked_isNull {T : Type} [DecidableEq T] (prT : T → J)
    (l : Linked T) : (serializeLinked prT l).isNull = false := rfl

/-! ### Tool -/

/-- Source: `class Tool(Model): type: ToolNameEnum`. -/
structure Tool where
  type : ToolNameEnum
deriving DecidableEq

def toolKeys : List String := ["type"]

def parseTool : J → Vres Tool
  | .obj kvs =>
    withExtra (extraErrs kvs toolKeys)
      ((reqFieldVal "type" (pLitOf toolNameLits) (getKey kvs "type")).map fun t => ⟨t⟩)
  | _ => err1 [] "value is not a valid dict"

/-- Modelled from the spec: serialization of a `Tool`. -/
def serializeTool (t : Tool) : J :=
  .obj (mkObj [("type", encReq prLitOf t.type)])

@[simp] theorem parseTool_serializeTool (t : Tool) :
    parseTool (serializeTool t) = .ok t := by
  obtain ⟨ty⟩ := t
  simp only [serializeTool, parseTool]
  simp +decide [toolKeys]

@[simp] theorem serializeTool_isNull (t : Tool) : (serializeTool t).isNull = false := rfl

/-! ### Side-panel states -/

/-- Source: `class SidePanelLocation(Model)` with six optional fields,
`flex` defaulting to `1.0`. -/
structure SidePanelLocation where
  flex : Option ℚ
  side : Option String
  visible : Option Bool
  size : Option ℤ
  row : Option ℤ
  col : Option ℤ
deriving DecidableEq

def sidePanelKeys : List String := ["flex", "side", "visible", "size", "row", "col"]

/-- Validation of the six `SidePanelLocation` fields (shared by every
subclass, which pydantic validates flattened). -/
def parseSidePanelCore (kvs : List (String × J)) : Vres SidePanelLocation :=
  (vmerge (optFieldVal "flex" pFloat (some 1) (getKey kvs "flex"))
  (vmerge (optFieldVal "side" pStr none (getKey kvs "side"))
  (vmerge (optFieldVal "visible" pBool none (getKey kvs "visible"))
  (vmerge (optFieldVal "size" pInt none (getKey kvs "size"))
  (vmerge (optFieldVal "row" pInt none (getKey kvs "row"))
          (optFieldVal "col" pInt none (getKey kvs "col"))))))).map
    fun t => ⟨t.1, t.2.1, t.2.2.1, t.2.2.2.1, t.2.2.2.2.1, t.2.2.2.2.2⟩

def parseSidePanelLocation : J → Vres SidePanelLocation
  | .obj kvs => withExtra (extraErrs kvs sidePanelKeys) (parseSidePanelCore kvs)
  | _ => err1 [] "value is not a valid dict"

/-- The serialized six shared side-panel fields. -/
def encSidePanelCore (s : SidePanelLocation) : List (String × Option J) :=
  [("flex", encOpt prFloat (some 1) s.flex),
   ("side", encOpt prStr none s.side),
   ("visible", encOpt prBool none s.visible),
   ("size", encOpt prInt none s.size),
   ("row", encOpt prInt none s.row),
   ("col", encOpt prInt none s.col)]

/-- Modelled from the spec: serialization of a `SidePanelLocation`. -/
def serializeSidePanelLocation (s : SidePanelLocation) : J :=
  .obj (mkObj (encSidePanelCore s))

@[simp] theorem parseSidePanelLocation_serialize (s : SidePanelLocation) :
    parseSidePanelLocation (serializeSidePanelLocation s) = .ok s := by
  obtain ⟨f, sd, v, sz, r, c⟩ := s
  simp only [serializeSidePanelLocation, encSidePanelCore, parseSidePanelLocation,
    parseSidePanelCore]
  simp +decide [sidePanelKeys]

@[simp] theorem serializeSidePanelLocation_isNull (s : SidePanelLocation) :
    (serializeSidePanelLocation s).isNull = false := rfl

/-- Source: `class StatisticsDisplayState(SidePanelLocation): pass`. -/
abbrev StatisticsDisplayState := SidePanelLocation

def parseStatisticsDisplayState : J → Vres StatisticsDisplayState := parseSidePanelLocation

def serializeStatisticsDisplayState : StatisticsDisplayState → J := serializeSidePanelLocation

/-- Source: `class HelpPanelState(SidePanelLocation): pass`. -/
abbrev HelpPanelState := SidePanelLocation

def parseHelpPanelState : J → Vres HelpPanelState := parseSidePanelLocation

def serializeHelpPanelState : HelpPanelState → J := serializeSidePanelLocation

/-- Source: `class LayerListPanelState(SidePanelLocation): pass`. -/
abbrev LayerListPanelState := SidePanelLocation

def parseLayerListPanelState : J → Vres LayerListPanelState := parseSidePanelLocation

def serializeLayerListPanelState : LayerListPanelState → J := serializeSidePanelLocation

@[simp] theorem parseStatisticsDisplayState_serialize (s : StatisticsDisplayState) :
    parseStatisticsDisplayState (serializeStatisticsDisplayState s) = .ok s :=
  parseSidePanelLocation_serialize s

@[simp] theorem parseHelpPanelState_serialize (s : HelpPanelState) :
    parseHelpPanelState (serializeHelpPanelState s) = .ok s :=
  parseSidePanelLocation_serialize s

@[simp] theorem parseLayerListPanelState_serialize (s : LayerListPanelState) :
    parseLayerListPanelState (serializeLayerListPanelState s) = .ok s :=
  parseSidePanelLocation_serialize s

/-- Source: `class SelectedLayerState(SidePanelLocation): layer: Optional[str]`. -/
structure SelectedLayerState where
  base : SidePanelLocation
  layer : Option String
deriving DecidableEq

def selectedLayerKeys : List String := "layer" :: sidePanelKeys

def parseSelectedLayerState : J → Vres SelectedLayerState
  | .obj kvs =>
    withExtra (extraErrs kvs selectedLayerKeys)
      ((vmerge (parseSidePanelCore kvs)
        (optFieldVal "layer" pStr none (getKey kvs "layer"))).map
        fun t => ⟨t.1, t.2⟩)
  | _ => err1 [] "value is not a valid dict"

/-- Modelled from the spec: serialization of a `SelectedLayerState`. -/
def serializeSelectedLayerState (s : SelectedLayerState) : J :=
  .obj (mkObj (encSidePanelCore s.base ++ [("layer", encOpt prStr none s.layer)]))

@[simp] theorem parseSelectedLayerState_serialize (s : SelectedLayerState) :
    parseSelectedLayerState (serializeSelectedLayerState s) = .ok s := by
  obtain ⟨⟨f, sd, v, sz, r, c⟩, layer⟩ := s
  simp only [serializeSelectedLayerState, encSidePanelCore, parseSelectedLayerState,
    parseSidePanelCore, List.cons_append, List.nil_append]
  simp +decide [selectedLayerKeys, sidePanelKeys]

@[simp] theorem serializeSelectedLayerState_isNull (s : SelectedLayerState) :
    (serializeSelectedLayerState s).isNull = false := rfl

/-- Source: `class LayerSidePanelState(SidePanelLocation)` adding `tab` and a
required `tabs`. -/
structure LayerSidePanelState where
  base : SidePanelLocation
  tab : Option String
  tabs : List String
deriving DecidableEq

def layerSidePanelKeys : List String := "tab" :: "tabs" :: sidePanelKeys

def parseLayerSidePanelState : J → Vres LayerSidePanelState
  | .obj kvs =>
    withExtra (extraErrs kvs layerSidePanelKeys)
      ((vmerge (parseSidePanelCore kvs)
       (vmerge (optFieldVal "tab" pStr none (getKey kvs "tab"))
               (reqFieldVal "tabs" (pList pStr) (getKey kvs "tabs")))).map
        fun t => ⟨t.1, t.2.1, t.2.2⟩)
  | _ => err1 [] "value is not a valid dict"

/-- Modelled from the spec: serialization of a `LayerSidePanelState`. -/
def serializeLayerSidePanelState (s : LayerSidePanelState) : J :=
  .obj (mkObj (encSidePanelCore s.base ++
    [("tab", encOpt prStr none s.tab),
     ("tabs", encReq (prList prStr) s.tabs)]))

@[simp] theorem parseLayerSidePanelState_serialize (s : LayerSidePanelState) :
    parseLayerSidePanelState (serializeLayerSidePanelState s) = .ok s := by
  obtain ⟨⟨f, sd, v, sz, r, c⟩, tab, tabs⟩ := s
  simp only [serializeLayerSidePanelState, encSidePanelCore, parseLayerSidePanelState,
    parseSidePanelCore, List.cons_append, List.nil_append]
  simp +decide [layerSidePanelKeys, sidePanelKeys]

@[simp] theorem serializeLayerSidePanelState_isNull (s : LayerSidePanelState) :
    (serializeLayerSidePanelState s).isNull = false := rfl

/-! ### Coordinate spaces -/

/-- Source: `class CoordinateArray(Model)` with required `coordinates` and
`labels` string lists. -/
structure CoordinateArray where
  coordinates : List String
  labels : List String
deriving DecidableEq

def coordinateArrayKeys : List String := ["coordinates", "labels"]

def parseCoordinateArray : J → Vres CoordinateArray
  | .obj kvs =>
    withExtra (extraErrs kvs coordinateArrayKeys)
      ((vmerge (reqFieldVal "coordinates" (pList pStr) (getKey kvs "coordinates"))
               (reqFieldVal "labels" (pList pStr) (getKey kvs "labels"))).map
        fun t => ⟨t.1, t.2⟩)
  | _ => err1 [] "value is not a valid dict"

/-- Modelled from the spec: serialization of a `CoordinateArray`. -/
def serializeCoordinateArray (c : CoordinateArray) : J :=
  .obj (mkObj
    [("coordinates", encReq (prList prStr) c.coordinates),
     ("labels", encReq (prList prStr) c.labels)])

@[simp] theorem parseCoordinateArray_serialize (c : CoordinateArray) :
    parseCoordinateArray (serializeCoordinateArray c) = .ok c := by
  obtain ⟨cs, ls⟩ := c
  simp only [serializeCoordinateArray, parseCoordinateArray]
  simp +decide [coordinateArrayKeys]

/-- Source: `DimensionScale = Union[Tuple[float, str], Tuple[None, None,
CoordinateArray]]` — a numeric scale with unit, or a symbolic coordinate
array in the third slot of a null-padded triple. -/
abbrev DimensionScale := Sum (ℚ × String) CoordinateArray

/-- The second union branch: `Tuple[None, None, CoordinateArray]`. -/
def pTupleNNC : J → Vres CoordinateArray
  | .arr [.null, .null, x] => errAt "2" (parseCoordinateArray x)
  | _ => err1 [] "value is not a valid (None, None, CoordinateArray) tuple"

/-- Validation of a `DimensionScale`: pydantic v1 tries the union branches
left to right and concatenates the branch errors when none matches. -/
def pDimensionScale (j : J) : Vres DimensionScale :=
  match pPairFS j with
  | .ok p => .ok (.inl p)
  | .error e1 =>
    match pTupleNNC j with
    | .ok ca => .ok (.inr ca)
    | .error e2 => .error (e1 ++ e2)

/-- Modelled from the spec: serialization of a `DimensionScale`. -/
def prDimensionScale : DimensionScale → J
  | .inl p => prPairFS p
  | .inr ca => .arr [.null, .null, serializeCoordinateArray ca]

@[simp] theorem pDimensionScale_prDimensionScale (d : DimensionScale) :
    pDimensionScale (prDimensionScale d) = .ok d := by
  cases d with
  | inl p => simp [prDimensionScale, pDimensionScale]
  | inr ca => simp [prDimensionScale, pDimensionScale, pPairFS, pTupleNNC, err1]

@[simp] theorem prDimensionScale_isNull (d : DimensionScale) :
    (prDimensionScale d).isNull = false := by
  cases d <;> rfl

/-- Source: `CoordinateSpace = Dict[str, DimensionScale]`. -/
abbrev CoordinateSpace := List (String × DimensionScale)

def pCoordinateSpace : J → Vres CoordinateSpace := pDict pDimensionScale

/-- Modelled from the spec: serialization of a `CoordinateSpace`. -/
def prCoordinateSpace : CoordinateSpace → J := prDict prDimensionScale

@[simp] theorem pCoordinateSpace_prCoordinateSpace (c : CoordinateSpace) :
    pCoordinateSpace (prCoordinateSpace c) = .ok c :=
  pDict_prDict _ _ (fun d => pDimensionScale_prDimensionScale d) c

@[simp] theorem prCoordinateSpace_isNull (c : CoordinateSpace) :
    (prCoordinateSpace c).isNull = false := rfl

/-- Source: `class CoordinateSpaceTransform(Model)` — note the source
declares `matrix: List[List[int]]` with no validator: no rank or
rectangularity check of any kind is performed. -/
structure CoordinateSpaceTransform where
  outputDimensions : CoordinateSpace
  inputDimensions : Option CoordinateSpace
  sourceRank : Option ℤ
  matrix : List (List ℤ)
deriving DecidableEq

def coordinateSpaceTransformKeys : List String :=
  ["outputDimensions", "inputDimensions", "sourceRank", "matrix"]

@[simp] theorem pListInt_rt (l : List ℤ) : pList pInt (prList prInt l) = .ok l :=
  pList_prList _ _ pInt_prInt l

@[simp] theorem pMatrix_rt (m : List (List ℤ)) :
    pList (pList pInt) (prList (prList prInt) m) = .ok m :=
  pList_prList _ _ pListInt_rt m

def parseCoordinateSpaceTransform : J → Vres CoordinateSpaceTransform
  | .obj kvs =>
    withExtra (extraErrs kvs coordinateSpaceTransformKeys)
      ((vmerge (reqFieldVal "outputDimensions" pCoordinateSpace (getKey kvs "outputDimensions"))
       (vmerge (optFieldVal "inputDimensions" pCoordinateSpace none (getKey kvs "inputDimensions"))
       (vmerge (optFieldVal "sourceRank" pInt none (getKey kvs "sourceRank"))
               (reqFieldVal "matrix" (pList (pList pInt)) (getKey kvs "matrix"))))).map
        fun t => ⟨t.1, t.2.1, t.2.2.1, t.2.2.2⟩)
  | _ => err1 [] "value is not a valid dict"

/-- Modelled from the spec: serialization of a `CoordinateSpaceTransform`. -/
def serializeCoordinateSpaceTransform (c : CoordinateSpaceTransform) : J :=
  .obj (mkObj
    [("outputDimensions", encReq prCoordinateSpace c.outputDimensions),
     ("inputDimensions", encOpt prCoordinateSpace none c.inputDimensions),
     ("sourceRank", encOpt prInt none c.sourceRank),
     ("matrix", encReq (prList (prList prInt)) c.matrix)])

@[simp] theorem parseCoordinateSpaceTransform_serialize (c : CoordinateSpaceTransform) :
    parseCoordinateSpaceTransform (serializeCoordinateSpaceTransform c) = .ok c := by
  obtain ⟨od, iDim, sr, m⟩ := c
  simp only [serializeCoordinateSpaceTransform, parseCoordinateSpaceTransform]
  simp +decide [coordinateSpaceTransformKeys]

@[simp] theorem serializeCoordinateSpaceTransform_isNull (c : CoordinateSpaceTransform) :
    (serializeCoordinateSpaceTransform c).isNull = false := rfl

/-! ### Layer data sources -/

/-- Source: `class LayerDataSource(Model)` with required `url` and
`subsources` and `enableDefaultSubsources` defaulting to `True`. -/
structure LayerDataSource where
  url : String
  transform : Option CoordinateSpaceTransform
  subsources : List (String × Bool)
  enableDefaultSubsources : Option Bool
deriving DecidableEq

def layerDataSourceKeys : List String :=
  ["url", "transform", "subsources", "enableDefaultSubsources"]

def parseLayerDataSource : J → Vres LayerDataSource
  | .obj kvs =>
    withExtra (extraErrs kvs layerDataSourceKeys)
      ((vmerge (reqFieldVal "url" pStr (getKey kvs "url"))
       (vmerge (optFieldVal "transform" parseCoordinateSpaceTransform none (getKey kvs "transform"))
       (vmerge (reqFieldVal "subsources" (pDict pBool) (getKey kvs "subsources"))
               (optFieldVal "enableDefaultSubsources" pBool (some true)
                 (getKey kvs "enableDefaultSubsources"))))).map
        fun t => ⟨t.1, t.2.1, t.2.2.1, t.2.2.2⟩)
  | _ => err1 [] "value is not a valid dict"

/-- Modelled from the spec: serialization of a `LayerDataSource`. -/
def serializeLayerDataSource (s : LayerDataSource) : J :=
  .obj (mkObj
    [("url", encReq prStr s.url),
     ("transform", encOpt serializeCoordinateSpaceTransform none s.transform),
     ("subsources", encReq (prDict prBool) s.subsources),
     ("enableDefaultSubsources", encOpt prBool (some true) s.enableDefaultSubsources)])

@[simp] theorem parseLayerDataSource_serialize (s : LayerDataSource) :
    parseLayerDataSource (serializeLayerDataSource s) = .ok s := by
  obtain ⟨url, tr, sub, en⟩ := s
  simp only [serializeLayerDataSource, parseLayerDataSource]
  simp +decide [layerDataSourceKeys]

@[simp] theorem serializeLayerDataSource_isNull (s : LayerDataSource) :
    (serializeLayerDataSource s).isNull = false := rfl

/-- One entry of a layer `source`: `Union[str, LayerDataSource]`. -/
abbrev SourceEntry := Sum String LayerDataSource

def pSourceEntry (j : J) : Vres SourceEntry :=
  match pStr j with
  | .ok s => .ok (.inl s)
  | .error e1 =>
    match parseLayerDataSource j with
    | .ok d => .ok (.inr d)
    | .error e2 => .error (e1 ++ e2)

/-- Modelled from the spec: serialization of a source entry. -/
def prSourceEntry : SourceEntry → J
  | .inl s => prStr s
  | .inr d => serializeLayerDataSource d

@[simp] theorem pSourceEntry_prSourceEntry (e : SourceEntry) :
    pSourceEntry (prSourceEntry e) = .ok e := by
  cases e with
  | inl s => simp [prSourceEntry, pSourceEntry, pStr, prStr]
  | inr d =>
    simp only [prSourceEntry, pSourceEntry]
    rw [show pStr (serializeLayerDataSource d) = err1 [] "str type expected" from rfl]
    simp [err1]

@[simp] theorem prSourceEntry_isNull (e : SourceEntry) :
    (prSourceEntry e).isNull = false := by
  cases e <;> rfl

/-- Source: `Layer.source` has type `List[Union[str, LayerDataSource]] |
Union[str, LayerDataSource]` — a list of entries or a single entry. -/
abbrev LayerSource := Sum (List SourceEntry) SourceEntry

def pLayerSource (j : J) : Vres LayerSource :=
  match pList pSourceEntry j with
  | .ok l => .ok (.inl l)
  | .error e1 =>
    match pSourceEntry j with
    | .ok e => .ok (.inr e)
    | .error e2 => .error (e1 ++ e2)

/-- Modelled from the spec: serialization of a layer `source`. -/
def prLayerSource : LayerSource → J
  | .inl l => prList prSourceEntry l
  | .inr e => prSourceEntry e

@[simp] theorem pLayerSource_prLayerSource (s : LayerSource) :
    pLayerSource (prLayerSource s) = .ok s := by
  cases s with
  | inl l =>
    simp [prLayerSource, pLayerSource,
      pList_prList _ _ (fun e => pSourceEntry_prSourceEntry e) l]
  | inr e =>
    cases e with
    | inl str =>
      simp [prLayerSource, prSourceEntry, pLayerSource, pList, pSourceEntry, pStr,
        prStr, err1]
    | inr d =>
      simp only [prLayerSource, prSourceEntry, pLayerSource]
      rw [show pList pSourceEntry (serializeLayerDataSource d) =
        err1 [] "value is not a valid list" from rfl]
      rw [show pSourceEntry (serializeLayerDataSource d) = .ok (.inr d) from
        pSourceEntry_prSourceEntry (.inr d)]
      simp [err1]

@[simp] theorem prLayerSource_isNull (s : LayerSource) :
    (prLayerSource s).isNull = false := by
  cases s with
  | inl l => rfl
  | inr e => cases e <;> rfl

/-! ### Shader controls -/

/-- Source: `class InvlerpParameters(Model)` with three optional fields. -/
structure InvlerpParameters where
  range : Option (ℚ × ℚ)
  window : Option (ℚ × ℚ)
  channel : Option (List ℤ)
deriving DecidableEq

def invlerpKeys : List String := ["range", "window", "channel"]

def parseInvlerpParameters : J → Vres InvlerpParameters
  | .obj kvs =>
    withExtra (extraErrs kvs invlerpKeys)
      ((vmerge (optFieldVal "range" pPairQ none (getKey kvs "range"))
       (vmerge (optFieldVal "window" pPairQ none (getKey kvs "window"))
               (optFieldVal "channel" (pList pInt) none (getKey kvs "channel")))).map
        fun t => ⟨t.1, t.2.1, t.2.2⟩)
  | _ => err1 [] "value is not a valid dict"

/-- Modelled from the spec: serialization of `InvlerpParameters`. -/
def serializeInvlerpParameters (p : InvlerpParameters) : J :=
  .obj (mkObj
    [("range", encOpt prPairQ none p.range),
     ("window", encOpt prPairQ none p.window),
     ("channel", encOpt (prList prInt) none p.channel)])

@[simp] theorem parseInvlerpParameters_serialize (p : InvlerpParameters) :
    parseInvlerpParameters (serializeInvlerpParameters p) = .ok p := by
  obtain ⟨r, w, ch⟩ := p
  simp only [serializeInvlerpParameters, parseInvlerpParameters]
  simp +decide [invlerpKeys]

@[simp] theorem serializeInvlerpParameters_isNull (p : InvlerpParameters) :
    (serializeInvlerpParameters p).isNull = false := rfl

/-- Source: `ShaderControls = Union[float, str, InvlerpParameters,
Dict[str, float]]`.  The dict variant carries a nonempty association list:
since an empty object is already matched by the earlier `InvlerpParameters`
branch (whose fields are all optional), pydantic's left-to-right union
resolution can only ever reach the dict branch on a nonempty object. -/
inductive ShaderControls where
  | num (q : ℚ)
  | strv (s : String)
  | invlerp (p : InvlerpParameters)
  | dict (m : {l : List (String × ℚ) // l ≠ []})
deriving DecidableEq

/-- Validation of `ShaderControls`: union branches tried left to right,
with the errors of every failed branch concatenated when all fail. -/
def parseShaderControls (j : J) : Vres ShaderControls :=
  match pFloat j with
  | .ok q => .ok (.num q)
  | .error e1 =>
    match pStr j with
    | .ok s => .ok (.strv s)
    | .error e2 =>
      match parseInvlerpParameters j with
      | .ok p => .ok (.invlerp p)
      | .error e3 =>
        match j with
        | .obj ((k, v) :: rest) =>
          match vmerge (errAt k (pFloat v)) (parseEntries pFloat rest) with
          | .ok t => .ok (.dict ⟨(k, t.1) :: t.2, List.cons_ne_nil _ _⟩)
          | .error e4 => .error (e1 ++ e2 ++ e3 ++ e4)
        | _ => .error (e1 ++ e2 ++ e3)

/-- Modelled from the spec: serialization of `ShaderControls`. -/
def serializeShaderControls : ShaderControls → J
  | .num q => prFloat q
  | .strv s => prStr s
  | .invlerp p => serializeInvlerpParameters p
  | .dict m => prDict prFloat m.val

/-- A nonempty object of numeric values never validates as
`InvlerpParameters`: an unknown key is an extra-field error, and the three
known keys all reject a bare number. -/
theorem parseInvlerp_numEntries_error (k : String) (v : ℚ) (rest : List (String × J)) :
    ∃ es, parseInvlerpParameters (.obj ((k, J.num v) :: rest)) = .error es := by
  rcases h : parseInvlerpParameters (.obj ((k, J.num v) :: rest)) with es | a
  case error => exact ⟨es, rfl⟩
  case ok =>
    exfalso
    rw [parseInvlerpParameters] at h
    rw [withExtra_ok_iff] at h
    obtain ⟨hextra, hchain⟩ := h
    have hk : invlerpKeys.contains k = true :=
      extraErrs_eq_nil_iff.mp hextra (k, J.num v) (by simp)
    rw [vresMap_ok_iff] at hchain
    obtain ⟨t, hchain, -⟩ := hchain
    rw [vmerge_ok_iff] at hchain
    obtain ⟨hr, hchain⟩ := hchain
    rw [vmerge_ok_iff] at hchain
    obtain ⟨hw, hc⟩ := hchain
    have hkcases : k = "range" ∨ k = "window" ∨ k = "channel" := by
      have : k ∈ invlerpKeys := by simpa using hk
      simpa [invlerpKeys] using this
    rcases hkcases with rfl | rfl | rfl
    · rw [show getKey ((("range", J.num v)) :: rest) "range" = some (J.num v) by
        simp [getKey]] at hr
      simp [optFieldVal, J.isNull, pPairQ, errAt, err1] at hr
    · rw [show getKey ((("window", J.num v)) :: rest) "window" = some (J.num v) by
        simp [getKey]] at hw
      simp [optFieldVal, J.isNull, pPairQ, errAt, err1] at hw
    · rw [show getKey ((("channel", J.num v)) :: rest) "channel" = some (J.num v) by
        simp [getKey]] at hc
      simp [optFieldVal, J.isNull, pList, errAt, err1] at hc

@[simp] theorem parseShaderControls_serialize (s : ShaderControls) :
    parseShaderControls (serializeShaderControls s) = .ok s := by
  cases s with
  | num q => simp [serializeShaderControls, parseShaderControls, prFloat, pFloat]
  | strv s =>
    simp [serializeShaderControls, parseShaderControls, prStr, pFloat, pStr, err1]
  | invlerp p =>
    simp only [serializeShaderControls, parseShaderControls]
    rw [show pFloat (serializeInvlerpParameters p) =
      err1 [] "value is not a valid float" from rfl]
    rw [show pStr (serializeInvlerpParameters p) = err1 [] "str type expected" from rfl]
    simp [err1]
  | dict m =>
    obtain ⟨l, hl⟩ := m
    obtain ⟨⟨k0, v0⟩, rest, rfl⟩ := List.exists_cons_of_ne_nil hl
    simp only [serializeShaderControls, prDict, List.map_cons, prFloat]
    rw [parseShaderControls]
    obtain ⟨es, hes⟩ := parseInvlerp_numEntries_error k0 v0
      (rest.map fun kv => (kv.1, J.num kv.2))
    have h1 : pFloat (J.obj ((k0, J.num v0) ::
        rest.map fun kv => (kv.1, J.num kv.2))) =
      err1 [] "value is not a valid float" := rfl
    have h2 : pStr (J.obj ((k0, J.num v0) ::
        rest.map fun kv => (kv.1, J.num kv.2))) =
      err1 [] "str type expected" := rfl
    have hrest : parseEntries pFloat (rest.map fun kv => (kv.1, J.num kv.2)) =
        .ok rest := parseEntries_map pFloat prFloat (fun q => rfl) rest
    rw [h1, h2]
    simp only [err1]
    simp [hes, hrest, errAt, pFloat, vmerge]

@[simp] theorem serializeShaderControls_isNull (s : ShaderControls) :
    (serializeShaderControls s).isNull = false := by
  cases s <;> rfl

/-! ### Skeleton rendering options -/

/-- Source: `class SkeletonRenderingOptions(Model)` with required `shader`
and `shaderControls` and defaulted line widths. -/
structure SkeletonRenderingOptions where
  shader : String
  shaderControls : ShaderControls
  mode2d : Option String
  lineWidth2d : Option ℚ
  mode3d : Option String
  lineWidth3d : Option ℚ
deriving DecidableEq

def skeletonRenderingKeys : List String :=
  ["shader", "shaderControls", "mode2d", "lineWidth2d", "mode3d", "lineWidth3d"]

def parseSkeletonRenderingOptions : J → Vres SkeletonRenderingOptions
  | .obj kvs =>
    withExtra (extraErrs kvs skeletonRenderingKeys)
      ((vmerge (reqFieldVal "shader" pStr (getKey kvs "shader"))
       (vmerge (reqFieldVal "shaderControls" parseShaderControls (getKey kvs "shaderControls"))
       (vmerge (optFieldVal "mode2d" pStr none (getKey kvs "mode2d"))
       (vmerge (optFieldVal "lineWidth2d" pFloat (some 2) (getKey kvs "lineWidth2d"))
       (vmerge (optFieldVal "mode3d" pStr none (getKey kvs "mode3d"))
               (optFieldVal "lineWidth3d" pFloat (some 1) (getKey kvs "lineWidth3d"))))))).map
        fun t => ⟨t.1, t.2.1, t.2.2.1, t.2.2.2.1, t.2.2.2.2.1, t.2.2.2.2.2⟩)
  | _ => err1 [] "value is not a valid dict"

/-- Modelled from the spec: serialization of `SkeletonRenderingOptions`. -/
def serializeSkeletonRenderingOptions (s : SkeletonRenderingOptions) : J :=
  .obj (mkObj
    [("shader", encReq prStr s.shader),
     ("shaderControls", encReq serializeShaderControls s.shaderControls),
     ("mode2d", encOpt prStr none s.mode2d),
     ("lineWidth2d", encOpt prFloat (some 2) s.lineWidth2d),
     ("mode3d", encOpt prStr none s.mode3d),
     ("lineWidth3d", encOpt prFloat (some 1) s.lineWidth3d)])

@[simp] theorem parseSkeletonRenderingOptions_serialize (s : SkeletonRenderingOptions) :
    parseSkeletonRenderingOptions (serializeSkeletonRenderingOptions s) = .ok s := by
  obtain ⟨sh, sc, m2, l2, m3, l3⟩ := s
  simp only [serializeSkeletonRenderingOptions, parseSkeletonRenderingOptions]
  simp +decide [skeletonRenderingKeys]

@[simp] theorem serializeSkeletonRenderingOptions_isNull (s : SkeletonRenderingOptions) :
    (serializeSkeletonRenderingOptions s).isNull = false := rfl

/-! ### Small unions used by layer fields -/

/-- Source: `Union[str, Literal[False]]` (`linkedSegmentationColorGroup`). -/
def pStrOrFalse (j : J) : Vres (Sum String Unit) :=
  match pStr j with
  | .ok s => .ok (.inl s)
  | .error e1 =>
    match j with
    | .bool false => .ok (.inr ())
    | _ => .error (e1 ++ [⟨[], "unexpected literal value"⟩])

def prStrOrFalse : Sum String Unit → J
  | .inl s => prStr s
  | .inr _ => .bool false

@[simp] theorem pStrOrFalse_prStrOrFalse (v : Sum String Unit) :
    pStrOrFalse (prStrOrFalse v) = .ok v := by
  cases v with
  | inl s => simp [prStrOrFalse, pStrOrFalse, pStr, prStr]
  | inr u => cases u; simp [prStrOrFalse, pStrOrFalse, pStr, err1]

@[simp] theorem prStrOrFalse_isNull (v : Sum String Unit) :
    (prStrOrFalse v).isNull = false := by
  cases v <;> rfl

/-- Source: `Union[str, None]` (elements of `vertexAttributeNames`). -/
def pStrOrNull (j : J) : Vres (Option String) :=
  if j.isNull then .ok none else (pStr j).map some

def prStrOrNull : Option String → J
  | none => .null
  | some s => prStr s

@[simp] theorem pStrOrNull_prStrOrNull (v : Option String) :
    pStrOrNull (prStrOrNull v) = .ok v := by
  cases v <;> rfl

/-- Source: `Union[int, str]` (elements of annotation `props`). -/
def pIntOrStr (j : J) : Vres (Sum ℤ String)
   :=
  match pInt j with
  | .ok i => .ok (.inl i)
  | .error e1 =>
    match pStr j with
    | .ok s => .ok (.inr s)
    | .error e2 => .error (e1 ++ e2)

def prIntOrStr : Sum ℤ String → J
  | .inl i => prInt i
  | .inr s => prStr s

@[simp] theorem pIntOrStr_prIntOrStr (v : Sum ℤ String) :
    pIntOrStr (prIntOrStr v) = .ok v := by
  cases v with
  | inl i => simp [prIntOrStr, pIntOrStr]
  | inr s => simp [prIntOrStr, pIntOrStr, pInt, pStr, prStr, err1]

@[simp] theorem prIntOrStr_isNull (v : Sum ℤ String) :
    (prIntOrStr v).isNull = false := by
  cases v <;> rfl

/-- Source: `Union[float, str]` (`AnnotationPropertySpec.default` and
`enum_values` elements). -/
def pFloatOrStr (j : J) : Vres (Sum ℚ String) :=
  match pFloat j with
  | .ok q => .ok (.inl q)
  | .error e1 =>
    match pStr j with
    | .ok s => .ok (.inr s)
    | .error e2 => .error (e1 ++ e2)

def prFloatOrStr : Sum ℚ String → J
  | .inl q => prFloat q
  | .inr s => prStr s

@[simp] theorem pFloatOrStr_prFloatOrStr (v : Sum ℚ String) :
    pFloatOrStr (prFloatOrStr v) = .ok v := by
  cases v with
  | inl q => simp [prFloatOrStr, pFloatOrStr]
  | inr s => simp [prFloatOrStr, pFloatOrStr, pFloat, pStr, prStr, err1]

@[simp] theorem prFloatOrStr_isNull (v : Sum ℚ String) :
    (prFloatOrStr v).isNull = false := by
  cases v <;> rfl

/-! Instantiated list/dict round trips used as rewrite rules below. -/

@[simp] theorem pListStr_rt (l : List String) : pList pStr (prList prStr l) = .ok l :=
  pList_prList _ _ pStr_prStr l

@[simp] theorem pListFloat_rt (l : List ℚ) : pList pFloat (prList prFloat l) = .ok l :=
  pList_prList _ _ pFloat_prFloat l

@[simp] theorem pListLSPS_rt (l : List LayerSidePanelState) :
    pList parseLayerSidePanelState (prList serializeLayerSidePanelState l) = .ok l :=
  pList_prList _ _ parseLayerSidePanelState_serialize l

@[simp] theorem pDictTool_rt (m : List (String × Tool)) :
    pDict parseTool (prDict serializeTool m) = .ok m :=
  pDict_prDict _ _ parseTool_serializeTool m

@[simp] theorem pDictBool_rt (m : List (String × Bool)) :
    pDict pBool (prDict prBool m) = .ok m :=
  pDict_prDict _ _ pBool_prBool m

@[simp] theorem pDictStr_rt (m : List (String × String)) :
    pDict pStr (prDict prStr m) = .ok m :=
  pDict_prDict _ _ pStr_prStr m

@[simp] theorem pDictFloat_rt (m : List (String × ℚ)) :
    pDict pFloat (prDict prFloat m) = .ok m :=
  pDict_prDict _ _ pFloat_prFloat m

@[simp] theorem pDictInt_rt (m : List (String × ℤ)) :
    pDict pInt (prDict prInt m) = .ok m :=
  pDict_prDict _ _ pInt_prInt m

@[simp] theorem pIntDictInt_rt (m : List (ℤ × ℤ)) :
    pIntDict pInt (prIntDict prInt m) = .ok m :=
  pIntDict_prIntDict _ _ pInt_prInt m

@[simp] theorem pIntDictStr_rt (m : List (ℤ × String)) :
    pIntDict pStr (prIntDict prStr m) = .ok m :=
  pIntDict_prIntDict _ _ pStr_prStr m

@[simp] theorem pListStrOrNull_rt (l : List (Option String)) :
    pList pStrOrNull (prList prStrOrNull l) = .ok l :=
  pList_prList _ _ pStrOrNull_prStrOrNull l

@[simp] theorem pListIntOrStr_rt (l : List (Sum ℤ String)) :
    pList pIntOrStr (prList prIntOrStr l) = .ok l :=
  pList_prList _ _ pIntOrStr_prIntOrStr l

@[simp] theorem pListFloatOrStr_rt (l : List (Sum ℚ String)) :
    pList pFloatOrStr (prList prFloatOrStr l) = .ok l :=
  pList_prList _ _ pFloatOrStr_prFloatOrStr l

/-! ### The layer base (`class Layer(Model)`)

The shared fields of every layer variant; pydantic validates them flattened
into each subclass, which is modelled by parsing them from the same object.
The base `type` field is consumed by the discriminator and re-checked as the
variant literal. -/

structure LayerCommon where
  source : LayerSource
  name : String
  visible : Option Bool
  tab : Option String
  layerDimensions : Option CoordinateSpace
  layerPosition : Option ℚ
  panels : Option (List LayerSidePanelState)
  pick : Option Bool
  tool_bindings : Option (List (String × Tool))
  tool : Option Tool
deriving DecidableEq

def layerCommonKeys : List String :=
  ["source", "name", "visible", "tab", "type", "layerDimensions", "layerPosition",
   "panels", "pick", "tool_bindings", "tool"]

def parseLayerCommon (kvs : List (String × J)) : Vres LayerCommon :=
  (vmerge (reqFieldVal "source" pLayerSource (getKey kvs "source"))
  (vmerge (reqFieldVal "name" pStr (getKey kvs "name"))
  (vmerge (optFieldVal "visible" pBool none (getKey kvs "visible"))
  (vmerge (optFieldVal "tab" pStr none (getKey kvs "tab"))
  (vmerge (optFieldVal "layerDimensions" pCoordinateSpace none (getKey kvs "layerDimensions"))
  (vmerge (optFieldVal "layerPosition" pFloat none (getKey kvs "layerPosition"))
  (vmerge (optFieldVal "panels" (pList parseLayerSidePanelState) none (getKey kvs "panels"))
  (vmerge (optFieldVal "pick" pBool none (getKey kvs "pick"))
  (vmerge (optFieldVal "tool_bindings" (pDict parseTool) none (getKey kvs "tool_bindings"))
          (optFieldVal "tool" parseTool none (getKey kvs "tool"))))))))))).map
    fun t => ⟨t.1, t.2.1, t.2.2.1, t.2.2.2.1, t.2.2.2.2.1, t.2.2.2.2.2.1,
      t.2.2.2.2.2.2.1, t.2.2.2.2.2.2.2.1, t.2.2.2.2.2.2.2.2.1, t.2.2.2.2.2.2.2.2.2⟩

/-- The serialized shared layer fields (the `type` discriminator is emitted
by each variant). -/
def encLayerCommon (c : LayerCommon) : List (String × Option J) :=
  [("source", encReq prLayerSource c.source),
   ("name", encReq prStr c.name),
   ("visible", encOpt prBool none c.visible),
   ("tab", encOpt prStr none c.tab),
   ("layerDimensions", encOpt prCoordinateSpace none c.layerDimensions),
   ("layerPosition", encOpt prFloat none c.layerPosition),
   ("panels", encOpt (prList serializeLayerSidePanelState) none c.panels),
   ("pick", encOpt prBool none c.pick),
   ("tool_bindings", encOpt (prDict serializeTool) none c.tool_bindings),
   ("tool", encOpt serializeTool none c.tool)]

/-! ### ImageLayer -/

/-- Source: `class ImageLayer(Layer)` with `type: Literal["image"]`,
`opacity: float = 0.05` and `crossSectionRenderScale: Optional[float] = 1.0`. -/
structure ImageLayer where
  base : LayerCommon
  shader : Option String
  shaderControls : Option ShaderControls
  opacity : ℚ
  blend : Option String
  crossSectionRenderScale : Option ℚ
deriving DecidableEq

def imageLayerKeys : List String :=
  layerCommonKeys ++ ["shader", "shaderControls", "opacity", "blend",
    "crossSectionRenderScale"]

def parseImageLayer : J → Vres ImageLayer
  | .obj kvs =>
    withExtra (extraErrs kvs imageLayerKeys)
      ((vmerge (reqFieldVal "type" (pLitOf ["image"]) (getKey kvs "type"))
       (vmerge (parseLayerCommon kvs)
       (vmerge (optFieldVal "shader" pStr none (getKey kvs "shader"))
       (vmerge (optFieldVal "shaderControls" parseShaderControls none (getKey kvs "shaderControls"))
       (vmerge (dfltFieldVal "opacity" pFloat (0.05 : ℚ) (getKey kvs "opacity"))
       (vmerge (optFieldVal "blend" pStr none (getKey kvs "blend"))
               (optFieldVal "crossSectionRenderScale" pFloat (some 1)
                 (getKey kvs "crossSectionRenderScale")))))))).map
        fun t => ⟨t.2.1, t.2.2.1, t.2.2.2.1, t.2.2.2.2.1, t.2.2.2.2.2.1, t.2.2.2.2.2.2⟩)
  | _ => err1 [] "value is not a valid dict"

/-- Modelled from the spec: serialization of an `ImageLayer`. -/
def serializeImageLayer (l : ImageLayer) : J :=
  .obj (mkObj (("type", some (J.str "image")) :: encLayerCommon l.base ++
    [("shader", encOpt prStr none l.shader),
     ("shaderControls", encOpt serializeShaderControls none l.shaderControls),
     ("opacity", encDflt prFloat (0.05 : ℚ) l.opacity),
     ("blend", encOpt prStr none l.blend),
     ("crossSectionRenderScale", encOpt prFloat (some 1) l.crossSectionRenderScale)]))

@[simp] theorem parseImageLayer_serialize (l : ImageLayer) :
    parseImageLayer (serializeImageLayer l) = .ok l := by
  obtain ⟨⟨src, nm, vis, tab, ld, lp, pa, pk, tb, tl⟩, sh, sc, op, bl, cs⟩ := l
  simp only [serializeImageLayer, encLayerCommon, List.cons_append, List.nil_append]
  simp only [parseImageLayer, parseLayerCommon]
  simp +decide [imageLayerKeys, layerCommonKeys, pLitOf]

@[simp] theorem serializeImageLayer_isNull (l : ImageLayer) :
    (serializeImageLayer l).isNull = false := rfl

/-! ### SegmentationLayer -/

/-- Source: `class SegmentationLayer(Layer)` with `type: Literal["segmentation"]`
and the per-variant default table (`hideSegmentZero=True`, `selectedAlpha=0.5`,
`colorSeed=0`, `meshRenderScale=10.0`, ...). -/
structure SegmentationLayer where
  base : LayerCommon
  segments : Option (List String)
  equivalences : Option (List (ℤ × ℤ))
  hideSegmentZero : Option Bool
  selectedAlpha : Option ℚ
  notSelectedAlpha : Option ℚ
  objectAlpha : Option ℚ
  saturation : Option ℚ
  ignoreNullVisibleSet : Option Bool
  skeletonRendering : Option SkeletonRenderingOptions
  colorSeed : Option ℤ
  crossSectionRenderScale : Option ℚ
  meshRenderScale : Option ℚ
  meshSilhouetteRendering : Option ℚ
  segmentQuery : Option String
  segmentColors : Option (List (ℤ × String))
  segmentDefaultColor : Option String
  linkedSegmentationGroup : Option String
  linkedSegmentationColorGroup : Option (Sum String Unit)
deriving DecidableEq

def segmentationLayerKeys : List String :=
  layerCommonKeys ++ ["segments", "equivalences", "hideSegmentZero", "selectedAlpha",
    "notSelectedAlpha", "objectAlpha", "saturation", "ignoreNullVisibleSet",
    "skeletonRendering", "colorSeed", "crossSectionRenderScale", "meshRenderScale",
    "meshSilhouetteRendering", "segmentQuery", "segmentColors", "segmentDefaultColor",
    "linkedSegmentationGroup", "linkedSegmentationColorGroup"]

def parseSegmentationLayer : J → Vres SegmentationLayer
  | .obj kvs =>
    withExtra (extraErrs kvs segmentationLayerKeys)
      ((vmerge (reqFieldVal "type" (pLitOf ["segmentation"]) (getKey kvs "type"))
       (vmerge (parseLayerCommon kvs)
       (vmerge (optFieldVal "segments" (pList pStr) none (getKey kvs "segments"))
       (vmerge (optFieldVal "equivalences" (pIntDict pInt) none (getKey kvs "equivalences"))
       (vmerge (optFieldVal "hideSegmentZero" pBool (some true) (getKey kvs "hideSegmentZero"))
       (vmerge (optFieldVal "selectedAlpha" pFloat (some (0.5 : ℚ)) (getKey kvs "selectedAlpha"))
       (vmerge (optFieldVal "notSelectedAlpha" pFloat (some 0) (getKey kvs "notSelectedAlpha"))
       (vmerge (optFieldVal "objectAlpha" pFloat (some 1) (getKey kvs "objectAlpha"))
       (vmerge (optFieldVal "saturation" pFloat (some 1) (getKey kvs "saturation"))
       (vmerge (optFieldVal "ignoreNullVisibleSet" pBool (some true) (getKey kvs "ignoreNullVisibleSet"))
       (vmerge (optFieldVal "skeletonRendering" parseSkeletonRenderingOptions none (getKey kvs "skeletonRendering"))
       (vmerge (optFieldVal "colorSeed" pInt (some 0) (getKey kvs "colorSeed"))
       (vmerge (optFieldVal "crossSectionRenderScale" pFloat (some 1) (getKey kvs "crossSectionRenderScale"))
       (vmerge (optFieldVal "meshRenderScale" pFloat (some 10) (getKey kvs "meshRenderScale"))
       (vmerge (optFieldVal "meshSilhouetteRendering" pFloat (some 0) (getKey kvs "meshSilhouetteRendering"))
       (vmerge (optFieldVal "segmentQuery" pStr none (getKey kvs "segmentQuery"))
       (vmerge (optFieldVal "segmentColors" (pIntDict pStr) none (getKey kvs "segmentColors"))
       (vmerge (optFieldVal "segmentDefaultColor" pStr none (getKey kvs "segmentDefaultColor"))
       (vmerge (optFieldVal "linkedSegmentationGroup" pStr none (getKey kvs "linkedSegmentationGroup"))
               (optFieldVal "linkedSegmentationColorGroup" pStrOrFalse none
                 (getKey kvs "linkedSegmentationColorGroup"))))))))))))))))))))).map
        fun t => ⟨t.2.1, t.2.2.1, t.2.2.2.1, t.2.2.2.2.1, t.2.2.2.2.2.1,
          t.2.2.2.2.2.2.1, t.2.2.2.2.2.2.2.1, t.2.2.2.2.2.2.2.2.1,
          t.2.2.2.2.2.2.2.2.2.1, t.2.2.2.2.2.2.2.2.2.2.1,
          t.2.2.2.2.2.2.2.2.2.2.2.1, t.2.2.2.2.2.2.2.2.2.2.2.2.1,
          t.2.2.2.2.2.2.2.2.2.2.2.2.2.1, t.2.2.2.2.2.2.2.2.2.2.2.2.2.2.1,
          t.2.2.2.2.2.2.2.2.2.2.2.2.2.2.2.1, t.2.2.2.2.2.2.2.2.2.2.2.2.2.2.2.2.1,
          t.2.2.2.2.2.2.2.2.2.2.2.2.2.2.2.2.2.1,
          t.2.2.2.2.2.2.2.2.2.2.2.2.2.2.2.2.2.2.1,
          t.2.2.2.2.2.2.2.2.2.2.2.2.2.2.2.2.2.2.2⟩)
  | _ => err1 [] "value is not a valid dict"

/-- Modelled from the spec: serialization of a `SegmentationLayer`. -/
def serializeSegmentationLayer (l : SegmentationLayer) : J :=
  .obj (mkObj (("type", some (J.str "segmentation")) :: encLayerCommon l.base ++
    [("segments", encOpt (prList prStr) none l.segments),
     ("equivalences", encOpt (prIntDict prInt) none l.equivalences),
     ("hideSegmentZero", encOpt prBool (some true) l.hideSegmentZero),
     ("selectedAlpha", encOpt prFloat (some (0.5 : ℚ)) l.selectedAlpha),
     ("notSelectedAlpha", encOpt prFloat (some 0) l.notSelectedAlpha),
     ("objectAlpha", encOpt prFloat (some 1) l.objectAlpha),
     ("saturation", encOpt prFloat (some 1) l.saturation),
     ("ignoreNullVisibleSet", encOpt prBool (some true) l.ignoreNullVisibleSet),
     ("skeletonRendering", encOpt serializeSkeletonRenderingOptions none l.skeletonRendering),
     ("colorSeed", encOpt prInt (some 0) l.colorSeed),
     ("crossSectionRenderScale", encOpt prFloat (some 1) l.crossSectionRenderScale),
     ("meshRenderScale", encOpt prFloat (some 10) l.meshRenderScale),
     ("meshSilhouetteRendering", encOpt prFloat (some 0) l.meshSilhouetteRendering),
     ("segmentQuery", encOpt prStr none l.segmentQuery),
     ("segmentColors", encOpt (prIntDict prStr) none l.segmentColors),
     ("segmentDefaultColor", encOpt prStr none l.segmentDefaultColor),
     ("linkedSegmentationGroup", encOpt prStr none l.linkedSegmentationGroup),
     ("linkedSegmentationColorGroup", encOpt prStrOrFalse none l.linkedSegmentationColorGroup)]))

@[simp] theorem parseSegmentationLayer_serialize (l : SegmentationLayer) :
    parseSegmentationLayer (serializeSegmentationLayer l) = .ok l := by
  obtain ⟨⟨src, nm, vis, tab, ld, lp, pa, pk, tb, tl⟩, sg, eq, hs, sa, na, oa, st,
    inv, sk, csd, crs, mrs, msr, sq, sc, sdc, lsg, lscg⟩ := l
  simp only [serializeSegmentationLayer, encLayerCommon, List.cons_append,
    List.nil_append]
  simp only [parseSegmentationLayer, parseLayerCommon]
  simp +decide [segmentationLayerKeys, layerCommonKeys, pLitOf]

@[simp] theorem serializeSegmentationLayer_isNull (l : SegmentationLayer) :
    (serializeSegmentationLayer l).isNull = false := rfl

/-! ### MeshLayer and NewLayer -/

/-- Source: `class MeshLayer(Layer)` with `type: Literal["mesh"]` and a
required `shader`. -/
structure MeshLayer where
  base : LayerCommon
  vertexAttributeSources : Option (List String)
  shader : String
  vertexAttributeNames : Option (List (Option String))
deriving DecidableEq

def meshLayerKeys : List String :=
  layerCommonKeys ++ ["vertexAttributeSources", "shader", "vertexAttributeNames"]

def parseMeshLayer : J → Vres MeshLayer
  | .obj kvs =>
    withExtra (extraErrs kvs meshLayerKeys)
      ((vmerge (reqFieldVal "type" (pLitOf ["mesh"]) (getKey kvs "type"))
       (vmerge (reqFieldVal "shader" pStr (getKey kvs "shader"))
       (vmerge (parseLayerCommon kvs)
       (vmerge (optFieldVal "vertexAttributeSources" (pList pStr) none
                 (getKey kvs "vertexAttributeSources"))
               (optFieldVal "vertexAttributeNames" (pList pStrOrNull) none
                 (getKey kvs "vertexAttributeNames")))))).map
        fun t => ⟨t.2.2.1, t.2.2.2.1, t.2.1, t.2.2.2.2⟩)
  | _ => err1 [] "value is not a valid dict"

/-- Modelled from the spec: serialization of a `MeshLayer`. -/
def serializeMeshLayer (l : MeshLayer) : J :=
  .obj (mkObj (("type", some (J.str "mesh")) :: encLayerCommon l.base ++
    [("vertexAttributeSources", encOpt (prList prStr) none l.vertexAttributeSources),
     ("shader", encReq prStr l.shader),
     ("vertexAttributeNames", encOpt (prList prStrOrNull) none l.vertexAttributeNames)]))

@[simp] theorem parseMeshLayer_serialize (l : MeshLayer) :
    parseMeshLayer (serializeMeshLayer l) = .ok l := by
  obtain ⟨⟨src, nm, vis, tab, ld, lp, pa, pk, tb, tl⟩, vas, sh, van⟩ := l
  simp only [serializeMeshLayer, encLayerCommon, List.cons_append, List.nil_append]
  simp only [parseMeshLayer, parseLayerCommon]
  simp +decide [meshLayerKeys, layerCommonKeys, pLitOf]

@[simp] theorem serializeMeshLayer_isNull (l : MeshLayer) :
    (serializeMeshLayer l).isNull = false := rfl

/-- Source: `class NewLayer(Layer)` with `type: Literal["new"]` and no extra
fields. -/
structure NewLayer where
  base : LayerCommon
deriving DecidableEq

def parseNewLayer : J → Vres NewLayer
  | .obj kvs =>
    withExtra (extraErrs kvs layerCommonKeys)
      ((vmerge (reqFieldVal "type" (pLitOf ["new"]) (getKey kvs "type"))
               (parseLayerCommon kvs)).map fun t => ⟨t.2⟩)
  | _ => err1 [] "value is not a valid dict"

/-- Modelled from the spec: serialization of a `NewLayer`. -/
def serializeNewLayer (l : NewLayer) : J :=
  .obj (mkObj (("type", some (J.str "new")) :: encLayerCommon l.base))

@[simp] theorem parseNewLayer_serialize (l : NewLayer) :
    parseNewLayer (serializeNewLayer l) = .ok l := by
  obtain ⟨⟨src, nm, vis, tab, ld, lp, pa, pk, tb, tl⟩⟩ := l
  simp only [serializeNewLayer, encLayerCommon]
  simp only [parseNewLayer, parseLayerCommon]
  simp +decide [layerCommonKeys, pLitOf]

@[simp] theorem serializeNewLayer_isNull (l : NewLayer) :
    (serializeNewLayer l).isNull = false := rfl

/-! ### Annotation shapes -/

/-- Source: `class AnnotationBase(Model)` — the shared annotation fields.
Note `type` is a plain `str` here, not a literal. -/
structure AnnotationCommon where
  id : Option String
  type : String
  description : Option String
  segments : Option (List ℤ)
  props : List (Sum ℤ String)
deriving DecidableEq

def annotationCommonKeys : List String :=
  ["id", "type", "description", "segments", "props"]

def parseAnnotationCommon (kvs : List (String × J)) : Vres AnnotationCommon :=
  (vmerge (optFieldVal "id" pStr none (getKey kvs "id"))
  (vmerge (reqFieldVal "type" pStr (getKey kvs "type"))
  (vmerge (optFieldVal "description" pStr none (getKey kvs "description"))
  (vmerge (optFieldVal "segments" (pList pInt) none (getKey kvs "segments"))
          (reqFieldVal "props" (pList pIntOrStr) (getKey kvs "props")))))).map
    fun t => ⟨t.1, t.2.1, t.2.2.1, t.2.2.2.1, t.2.2.2.2⟩

def encAnnotationCommon (c : AnnotationCommon) : List (String × Option J) :=
  [("id", encOpt prStr none c.id),
   ("type", encReq prStr c.type),
   ("description", encOpt prStr none c.description),
   ("segments", encOpt (prList prInt) none c.segments),
   ("props", encReq (prList prIntOrStr) c.props)]

/-- Source: `class PointAnnotation(AnnotationBase): point: List[float]`. -/
structure PointAnnotation where
  base : AnnotationCommon
  point : List ℚ
deriving DecidableEq

def pointAnnotationKeys : List String := "point" :: annotationCommonKeys

def parsePointAnn : J → Vres PointAnnotation
  | .obj kvs =>
    withExtra (extraErrs kvs pointAnnotationKeys)
      ((vmerge (reqFieldVal "point" (pList pFloat) (getKey kvs "point"))
               (parseAnnotationCommon kvs)).map fun t => ⟨t.2, t.1⟩)
  | _ => err1 [] "value is not a valid dict"

/-- Modelled from the spec: serialization of a `PointAnnotation`. -/
def serializePointAnn (a : PointAnnotation) : J :=
  .obj (mkObj (encAnnotationCommon a.base ++
    [("point", encReq (prList prFloat) a.point)]))

@[simp] theorem parsePointAnn_serialize (a : PointAnnotation) :
    parsePointAnn (serializePointAnn a) = .ok a := by
  obtain ⟨⟨i, ty, de, sg, pr⟩, pt⟩ := a
  simp only [serializePointAnn, encAnnotationCommon, List.cons_append,
    List.nil_append]
  simp only [parsePointAnn, parseAnnotationCommon]
  simp +decide [pointAnnotationKeys, annotationCommonKeys]

@[simp] theorem serializePointAnn_isNull (a : PointAnnotation) :
    (serializePointAnn a).isNull = false := rfl

/-- Source: `class LineAnnotation(AnnotationBase)` with `pointA`, `pointB`
(also aliased as `AxisAlignedBoundingBoxAnnotation`). -/
structure LineAnnotation where
  base : AnnotationCommon
  pointA : List ℚ
  pointB : List ℚ
deriving DecidableEq

def lineAnnotationKeys : List String := "pointA" :: "pointB" :: annotationCommonKeys

def parseLineAnn : J → Vres LineAnnotation
  | .obj kvs =>
    withExtra (extraErrs kvs lineAnnotationKeys)
      ((vmerge (reqFieldVal "pointA" (pList pFloat) (getKey kvs "pointA"))
       (vmerge (reqFieldVal "pointB" (pList pFloat) (getKey kvs "pointB"))
               (parseAnnotationCommon kvs))).map fun t => ⟨t.2.2, t.1, t.2.1⟩)
  | _ => err1 [] "value is not a valid dict"

/-- Modelled from the spec: serialization of a `LineAnnotation`. -/
def serializeLineAnn (a : LineAnnotation) : J :=
  .obj (mkObj (encAnnotationCommon a.base ++
    [("pointA", encReq (prList prFloat) a.pointA),
     ("pointB", encReq (prList prFloat) a.pointB)]))

@[simp] theorem parseLineAnn_serialize (a : LineAnnotation) :
    parseLineAnn (serializeLineAnn a) = .ok a := by
  obtain ⟨⟨i, ty, de, sg, pr⟩, pA, pB⟩ := a
  simp only [serializeLineAnn, encAnnotationCommon, List.cons_append,
    List.nil_append]
  simp only [parseLineAnn, parseAnnotationCommon]
  simp +decide [lineAnnotationKeys, annotationCommonKeys]

@[simp] theorem serializeLineAnn_isNull (a : LineAnnotation) :
    (serializeLineAnn a).isNull = false := rfl

/-- Source: `class EllipsoidAnnotation(AnnotationBase)` with `center`, `radii`. -/
structure EllipsoidAnnotation where
  base : AnnotationCommon
  center : List ℚ
  radii : List ℚ
deriving DecidableEq

def ellipsoidAnnotationKeys : List String := "center" :: "radii" :: annotationCommonKeys

def parseEllipsoidAnn : J → Vres EllipsoidAnnotation
  | .obj kvs =>
    withExtra (extraErrs kvs ellipsoidAnnotationKeys)
      ((vmerge (reqFieldVal "center" (pList pFloat) (getKey kvs "center"))
       (vmerge (reqFieldVal "radii" (pList pFloat) (getKey kvs "radii"))
               (parseAnnotationCommon kvs))).map fun t => ⟨t.2.2, t.1, t.2.1⟩)
  | _ => err1 [] "value is not a valid dict"

/-- Modelled from the spec: serialization of an `EllipsoidAnnotation`. -/
def serializeEllipsoidAnn (a : EllipsoidAnnotation) : J :=
  .obj (mkObj (encAnnotationCommon a.base ++
    [("center", encReq (prList prFloat) a.center),
     ("radii", encReq (prList prFloat) a.radii)]))

@[simp] theorem parseEllipsoidAnn_serialize (a : EllipsoidAnnotation) :
    parseEllipsoidAnn (serializeEllipsoidAnn a) = .ok a := by
  obtain ⟨⟨i, ty, de, sg, pr⟩, ce, ra⟩ := a
  simp only [serializeEllipsoidAnn, encAnnotationCommon, List.cons_append,
    List.nil_append]
  simp only [parseEllipsoidAnn, parseAnnotationCommon]
  simp +decide [ellipsoidAnnotationKeys, annotationCommonKeys]

@[simp] theorem serializeEllipsoidAnn_isNull (a : EllipsoidAnnotation) :
    (serializeEllipsoidAnn a).isNull = false := rfl

/-- Source: `Annotations = Union[PointAnnotation, LineAnnotation,
EllipsoidAnnotation, AxisAlignedBoundingBoxAnnotation]`, the last being the
same class as `LineAnnotation`. -/
inductive Annotations where
  | point (a : PointAnnotation)
  | line (a : LineAnnotation)
  | ellipsoid (a : EllipsoidAnnotation)
deriving DecidableEq

/-- Validation of the `Annotations` union: branches left to right, the
fourth branch being `LineAnnotation` again (the bounding-box alias). -/
def parseAnnotationsU (j : J) : Vres Annotations :=
  match parsePointAnn j with
  | .ok a => .ok (.point a)
  | .error e1 =>
    match parseLineAnn j with
    | .ok a => .ok (.line a)
    | .error e2 =>
      match parseEllipsoidAnn j with
      | .ok a => .ok (.ellipsoid a)
      | .error e3 =>
        match parseLineAnn j with
        | .ok a => .ok (.line a)
        | .error e4 => .error (e1 ++ e2 ++ e3 ++ e4)

/-- Modelled from the spec: serialization of an `Annotations` value. -/
def serializeAnnotationsU : Annotations → J
  | .point a => serializePointAnn a
  | .line a => serializeLineAnn a
  | .ellipsoid a => serializeEllipsoidAnn a

/-- A `PointAnnotation` needs its required `point` key. -/
theorem parsePointAnn_err (kvs : List (String × J))
    (h : getKey kvs "point" = none) :
    ∃ es, parsePointAnn (.obj kvs) = .error es := by
  rcases hr : parsePointAnn (.obj kvs) with es | a
  · exact ⟨es, rfl⟩
  · exfalso
    rw [parsePointAnn, withExtra_ok_iff] at hr
    obtain ⟨-, hr⟩ := hr
    rw [vresMap_ok_iff] at hr
    obtain ⟨t, hr, -⟩ := hr
    rw [vmerge_ok_iff] at hr
    obtain ⟨hp, -⟩ := hr
    rw [h] at hp
    simp [reqFieldVal, err1] at hp

/-- A `LineAnnotation` needs its required `pointA` key. -/
theorem parseLineAnn_err (kvs : List (String × J))
    (h : getKey kvs "pointA" = none) :
    ∃ es, parseLineAnn (.obj kvs) = .error es := by
  rcases hr : parseLineAnn (.obj kvs) with es | a
  · exact ⟨es, rfl⟩
  · exfalso
    rw [parseLineAnn, withExtra_ok_iff] at hr
    obtain ⟨-, hr⟩ := hr
    rw [vresMap_ok_iff] at hr
    obtain ⟨t, hr, -⟩ := hr
    rw [vmerge_ok_iff] at hr
    obtain ⟨hp, -⟩ := hr
    rw [h] at hp
    simp [reqFieldVal, err1] at hp

theorem parsePoint_on_serializedLine (a : LineAnnotation) :
    ∃ es, parsePointAnn (serializeLineAnn a) = .error es := by
  obtain ⟨⟨i, ty, de, sg, pr⟩, pA, pB⟩ := a
  simp only [serializeLineAnn, encAnnotationCommon, List.cons_append,
    List.nil_append]
  exact parsePointAnn_err _ (by simp +decide)

theorem parsePoint_on_serializedEllipsoid (a : EllipsoidAnnotation) :
    ∃ es, parsePointAnn (serializeEllipsoidAnn a) = .error es := by
  obtain ⟨⟨i, ty, de, sg, pr⟩, ce, ra⟩ := a
  simp only [serializeEllipsoidAnn, encAnnotationCommon, List.cons_append,
    List.nil_append]
  exact parsePointAnn_err _ (by simp +decide)

theorem parseLine_on_serializedEllipsoid (a : EllipsoidAnnotation) :
    ∃ es, parseLineAnn (serializeEllipsoidAnn a) = .error es := by
  obtain ⟨⟨i, ty, de, sg, pr⟩, ce, ra⟩ := a
  simp only [serializeEllipsoidAnn, encAnnotationCommon, List.cons_append,
    List.nil_append]
  exact parseLineAnn_err _ (by simp +decide)

@[simp] theorem parseAnnotationsU_serialize (a : Annotations) :
    parseAnnotationsU (serializeAnnotationsU a) = .ok a := by
  cases a with
  | point p => simp [serializeAnnotationsU, parseAnnotationsU]
  | line ln =>
    simp only [serializeAnnotationsU, parseAnnotationsU]
    obtain ⟨es, hes⟩ := parsePoint_on_serializedLine ln
    rw [hes]
    simp
  | ellipsoid e =>
    simp only [serializeAnnotationsU, parseAnnotationsU]
    obtain ⟨es1, hes1⟩ := parsePoint_on_serializedEllipsoid e
    obtain ⟨es2, hes2⟩ := parseLine_on_serializedEllipsoid e
    rw [hes1, hes2]
    simp

@[simp] theorem serializeAnnotationsU_isNull (a : Annotations) :
    (serializeAnnotationsU a).isNull = false := by
  cases a <;> rfl

@[simp] theorem pListAnnotationsU_rt (l : List Annotations) :
    pList parseAnnotationsU (prList serializeAnnotationsU l) = .ok l :=
  pList_prList _ _ parseAnnotationsU_serialize l

/-! ### AnnotationPropertySpec and AnnotationLayer -/

/-- Source: `class AnnotationPropertySpec(Model)`. -/
structure AnnotationPropertySpec where
  id : String
  type : String
  description : Option String
  default : Option (Sum ℚ String)
  enum_values : Option (List (Sum ℚ String))
  enum_labels : Option (List String)
deriving DecidableEq

def annotationPropertySpecKeys : List String :=
  ["id", "type", "description", "default", "enum_values", "enum_labels"]

def parseAnnotationPropertySpec : J → Vres AnnotationPropertySpec
  | .obj kvs =>
    withExtra (extraErrs kvs annotationPropertySpecKeys)
      ((vmerge (reqFieldVal "id" pStr (getKey kvs "id"))
       (vmerge (reqFieldVal "type" pStr (getKey kvs "type"))
       (vmerge (optFieldVal "description" pStr none (getKey kvs "description"))
       (vmerge (optFieldVal "default" pFloatOrStr none (getKey kvs "default"))
       (vmerge (optFieldVal "enum_values" (pList pFloatOrStr) none (getKey kvs "enum_values"))
               (optFieldVal "enum_labels" (pList pStr) none (getKey kvs "enum_labels"))))))).map
        fun t => ⟨t.1, t.2.1, t.2.2.1, t.2.2.2.1, t.2.2.2.2.1, t.2.2.2.2.2⟩)
  | _ => err1 [] "value is not a valid dict"

/-- Modelled from the spec: serialization of an `AnnotationPropertySpec`. -/
def serializeAnnotationPropertySpec (s : AnnotationPropertySpec) : J :=
  .obj (mkObj
    [("id", encReq prStr s.id),
     ("type", encReq prStr s.type),
     ("description", encOpt prStr none s.description),
     ("default", encOpt prFloatOrStr none s.default),
     ("enum_values", encOpt (prList prFloatOrStr) none s.enum_values),
     ("enum_labels", encOpt (prList prStr) none s.enum_labels)])

@[simp] theorem parseAnnotationPropertySpec_serialize (s : AnnotationPropertySpec) :
    parseAnnotationPropertySpec (serializeAnnotationPropertySpec s) = .ok s := by
  obtain ⟨i, ty, de, df, ev, el⟩ := s
  simp only [serializeAnnotationPropertySpec, parseAnnotationPropertySpec]
  simp +decide [annotationPropertySpecKeys]

@[simp] theorem serializeAnnotationPropertySpec_isNull (s : AnnotationPropertySpec) :
    (serializeAnnotationPropertySpec s).isNull = false := rfl

@[simp] theorem pListAPS_rt (l : List AnnotationPropertySpec) :
    pList parseAnnotationPropertySpec (prList serializeAnnotationPropertySpec l) = .ok l :=
  pList_prList _ _ parseAnnotationPropertySpec_serialize l

/-- Source: `class AnnotationLayer(Layer, AnnotationLayerOptions)` with
`type: Literal["annotation"]`, required `linkedSegmentationLayer` and
`filterBySegmentation`, and `annotationColor` inherited from
`AnnotationLayerOptions`. -/
structure AnnotationLayer where
  base : LayerCommon
  annotationColor : Option String
  annotations : Option (List Annotations)
  annotationProperties : Option (List AnnotationPropertySpec)
  annotationRelationships : Option (List String)
  linkedSegmentationLayer : List (String × String)
  filterBySegmentation : List String
  ignoreNullSegmentFilter : Option Bool
  shader : Option String
  shaderControls : Option ShaderControls
deriving DecidableEq

def annotationLayerKeys : List String :=
  layerCommonKeys ++ ["annotationColor", "annotations", "annotationProperties",
    "annotationRelationships", "linkedSegmentationLayer", "filterBySegmentation",
    "ignoreNullSegmentFilter", "shader", "shaderControls"]

def parseAnnotationLayer : J → Vres AnnotationLayer
  | .obj kvs =>
    withExtra (extraErrs kvs annotationLayerKeys)
      ((vmerge (reqFieldVal "type" (pLitOf ["annotation"]) (getKey kvs "type"))
       (vmerge (parseLayerCommon kvs)
       (vmerge (optFieldVal "annotationColor" pStr none (getKey kvs "annotationColor"))
       (vmerge (optFieldVal "annotations" (pList parseAnnotationsU) none (getKey kvs "annotations"))
       (vmerge (optFieldVal "annotationProperties" (pList parseAnnotationPropertySpec) none
                 (getKey kvs "annotationProperties"))
       (vmerge (optFieldVal "annotationRelationships" (pList pStr) none
                 (getKey kvs "annotationRelationships"))
       (vmerge (reqFieldVal "linkedSegmentationLayer" (pDict pStr)
                 (getKey kvs "linkedSegmentationLayer"))
       (vmerge (reqFieldVal "filterBySegmentation" (pList pStr)
                 (getKey kvs "filterBySegmentation"))
       (vmerge (optFieldVal "ignoreNullSegmentFilter" pBool (some true)
                 (getKey kvs "ignoreNullSegmentFilter"))
       (vmerge (optFieldVal "shader" pStr none (getKey kvs "shader"))
               (optFieldVal "shaderControls" parseShaderControls none
                 (getKey kvs "shaderControls")))))))))))).map
        fun t => ⟨t.2.1, t.2.2.1, t.2.2.2.1, t.2.2.2.2.1, t.2.2.2.2.2.1,
          t.2.2.2.2.2.2.1, t.2.2.2.2.2.2.2.1, t.2.2.2.2.2.2.2.2.1,
          t.2.2.2.2.2.2.2.2.2.1, t.2.2.2.2.2.2.2.2.2.2⟩)
  | _ => err1 [] "value is not a valid dict"

/-- Modelled from the spec: serialization of an `AnnotationLayer`. -/
def serializeAnnotationLayer (l : AnnotationLayer) : J :=
  .obj (mkObj (("type", some (J.str "annotation")) :: encLayerCommon l.base ++
    [("annotationColor", encOpt prStr none l.annotationColor),
     ("annotations", encOpt (prList serializeAnnotationsU) none l.annotations),
     ("annotationProperties", encOpt (prList serializeAnnotationPropertySpec) none
       l.annotationProperties),
     ("annotationRelationships", encOpt (prList prStr) none l.annotationRelationships),
     ("linkedSegmentationLayer", encReq (prDict prStr) l.linkedSegmentationLayer),
     ("filterBySegmentation", encReq (prList prStr) l.filterBySegmentation),
     ("ignoreNullSegmentFilter", encOpt prBool (some true) l.ignoreNullSegmentFilter),
     ("shader", encOpt prStr none l.shader),
     ("shaderControls", encOpt serializeShaderControls none l.shaderControls)]))

@[simp] theorem parseAnnotationLayer_serialize (l : AnnotationLayer) :
    parseAnnotationLayer (serializeAnnotationLayer l) = .ok l := by
  obtain ⟨⟨src, nm, vis, tab, ld, lp, pa, pk, tb, tl⟩, ac, an, ap, ar, lsl, fbs,
    inf, sh, sc⟩ := l
  simp only [serializeAnnotationLayer, encLayerCommon, List.cons_append,
    List.nil_append]
  simp only [parseAnnotationLayer, parseLayerCommon]
  simp +decide [annotationLayerKeys, layerCommonKeys, pLitOf]

@[simp] theorem serializeAnnotationLayer_isNull (l : AnnotationLayer) :
    (serializeAnnotationLayer l).isNull = false := rfl

/-! ### The discriminated layer union

Source: `LayerType = Annotated[Union[ImageLayer, SegmentationLayer,
AnnotationLayer, MeshLayer, NewLayer], Field(discriminator="type")]`. -/

inductive LayerType where
  | image (l : ImageLayer)
  | segmentation (l : SegmentationLayer)
  | annot (l : AnnotationLayer)
  | mesh (l : MeshLayer)
  | newLayer (l : NewLayer)
deriving DecidableEq

/-- Validation of the discriminated union: the `type` key is read first
(`MissingDiscriminator` when absent), then the variant validator runs. -/
def parseLayerType : J → Vres LayerType
  | .obj kvs =>
    match getKey kvs "type" with
    | none => err1 ["type"] "discriminator type is missing"
    | some (.str "image") => (parseImageLayer (.obj kvs)).map .image
    | some (.str "segmentation") => (parseSegmentationLayer (.obj kvs)).map .segmentation
    | some (.str "annotation") => (parseAnnotationLayer (.obj kvs)).map .annot
    | some (.str "mesh") => (parseMeshLayer (.obj kvs)).map .mesh
    | some (.str "new") => (parseNewLayer (.obj kvs)).map .newLayer
    | some _ => err1 ["type"] "no match for discriminator value"
  | _ => err1 [] "value is not a valid dict"

/-- Modelled from the spec: serialization of a layer. -/
def serializeLayerType : LayerType → J
  | .image l => serializeImageLayer l
  | .segmentation l => serializeSegmentationLayer l
  | .annot l => serializeAnnotationLayer l
  | .mesh l => serializeMeshLayer l
  | .newLayer l => serializeNewLayer l

@[simp] theorem parseLayerType_serialize (l : LayerType) :
    parseLayerType (serializeLayerType l) = .ok l := by
  cases l with
  | image x =>
    simp only [serializeLayerType, serializeImageLayer, List.cons_append, parseLayerType]
    rw [getKey_mkObj_self _ _ (by simp +decide [encLayerCommon])]
    show Except.map LayerType.image (parseImageLayer (serializeImageLayer x)) =
      .ok (.image x)
    simp
  | segmentation x =>
    simp only [serializeLayerType, serializeSegmentationLayer, List.cons_append,
      parseLayerType]
    rw [getKey_mkObj_self _ _ (by simp +decide [encLayerCommon])]
    show Except.map LayerType.segmentation
      (parseSegmentationLayer (serializeSegmentationLayer x)) = .ok (.segmentation x)
    simp
  | annot x =>
    simp only [serializeLayerType, serializeAnnotationLayer, List.cons_append,
      parseLayerType]
    rw [getKey_mkObj_self _ _ (by simp +decide [encLayerCommon])]
    show Except.map LayerType.annot (parseAnnotationLayer (serializeAnnotationLayer x)) =
      .ok (.annot x)
    simp
  | mesh x =>
    simp only [serializeLayerType, serializeMeshLayer, List.cons_append, parseLayerType]
    rw [getKey_mkObj_self _ _ (by simp +decide [encLayerCommon])]
    show Except.map LayerType.mesh (parseMeshLayer (serializeMeshLayer x)) =
      .ok (.mesh x)
    simp
  | newLayer x =>
    simp only [serializeLayerType, serializeNewLayer, parseLayerType]
    rw [getKey_mkObj_self _ _ (by simp +decide [encLayerCommon])]
    show Except.map LayerType.newLayer (parseNewLayer (serializeNewLayer x)) =
      .ok (.newLayer x)
    simp

@[simp] theorem serializeLayerType_isNull (l : LayerType) :
    (serializeLayerType l).isNull = false := by
  cases l <;> rfl

@[simp] theorem pListLayerType_rt (l : List LayerType) :
    pList parseLayerType (prList serializeLayerType l) = .ok l :=
  pList_prList _ _ parseLayerType_serialize l

/-! ### Cross sections and layouts -/

@[simp] theorem parseLinkedListFloat_rt (l : Linked (List ℚ)) :
    parseLinked (pList pFloat) (serializeLinked (prList prFloat) l) = .ok l :=
  parseLinked_serializeLinked _ _ pListFloat_rt (fun a => prList_isNull _ a) l

@[simp] theorem parseLinkedQuad_rt (l : Linked Quaternion) :
    parseLinked pQuadQ (serializeLinked prQuadQ l) = .ok l :=
  parseLinked_serializeLinked _ _ pQuadQ_prQuadQ prQuadQ_isNull l

@[simp] theorem parseLinkedFloat_rt (l : Linked ℚ) :
    parseLinked pFloat (serializeLinked prFloat l) = .ok l :=
  parseLinked_serializeLinked _ _ pFloat_prFloat prFloat_isNull l

/-- Source: `class CrossSection(Model)` with `width`/`height` defaulting to
1000 and required linked navigation values. -/
structure CrossSection where
  width : ℤ
  height : ℤ
  position : Linked (List ℚ)
  orientation : Linked Quaternion
  scale : Linked ℚ
deriving DecidableEq

def crossSectionKeys : List String :=
  ["width", "height", "position", "orientation", "scale"]

def parseCrossSection : J → Vres CrossSection
  | .obj kvs =>
    withExtra (extraErrs kvs crossSectionKeys)
      ((vmerge (dfltFieldVal "width" pInt 1000 (getKey kvs "width"))
       (vmerge (dfltFieldVal "height" pInt 1000 (getKey kvs "height"))
       (vmerge (reqFieldVal "position" (parseLinked (pList pFloat)) (getKey kvs "position"))
       (vmerge (reqFieldVal "orientation" (parseLinked pQuadQ) (getKey kvs "orientation"))
               (reqFieldVal "scale" (parseLinked pFloat) (getKey kvs "scale")))))).map
        fun t => ⟨t.1, t.2.1, t.2.2.1, t.2.2.2.1, t.2.2.2.2⟩)
  | _ => err1 [] "value is not a valid dict"

/-- Modelled from the spec: serialization of a `CrossSection`. -/
def serializeCrossSection (c : CrossSection) : J :=
  .obj (mkObj
    [("width", encDflt prInt 1000 c.width),
     ("height", encDflt prInt 1000 c.height),
     ("position", encReq (serializeLinked (prList prFloat)) c.position),
     ("orientation", encReq (serializeLinked prQuadQ) c.orientation),
     ("scale", encReq (serializeLinked prFloat) c.scale)])

@[simp] theorem parseCrossSection_serialize (c : CrossSection) :
    parseCrossSection (serializeCrossSection c) = .ok c := by
  obtain ⟨w, h, po, or, sc⟩ := c
  simp only [serializeCrossSection, parseCrossSection]
  simp +decide [crossSectionKeys]

@[simp] theorem serializeCrossSection_isNull (c : CrossSection) :
    (serializeCrossSection c).isNull = false := rfl

@[simp] theorem pDictCrossSection_rt (m : List (String × CrossSection)) :
    pDict parseCrossSection (prDict serializeCrossSection m) = .ok m :=
  pDict_prDict _ _ parseCrossSection_serialize m

/-- Source: `class DataPanelLayout(Model)` — note `type` is a plain `str`
(the `DataPanelLayoutTypes` literal set is defined in the source but unused). -/
structure DataPanelLayout where
  type : String
  crossSections : List (String × CrossSection)
  orthographicProjection : Option Bool
deriving DecidableEq

def dataPanelLayoutKeys : List String :=
  ["type", "crossSections", "orthographicProjection"]

def parseDataPanelLayout : J → Vres DataPanelLayout
  | .obj kvs =>
    withExtra (extraErrs kvs dataPanelLayoutKeys)
      ((vmerge (reqFieldVal "type" pStr (getKey kvs "type"))
       (vmerge (reqFieldVal "crossSections" (pDict parseCrossSection)
                 (getKey kvs "crossSections"))
               (optFieldVal "orthographicProjection" pBool none
                 (getKey kvs "orthographicProjection")))).map
        fun t => ⟨t.1, t.2.1, t.2.2⟩)
  | _ => err1 [] "value is not a valid dict"

/-- Modelled from the spec: serialization of a `DataPanelLayout`. -/
def serializeDataPanelLayout (d : DataPanelLayout) : J :=
  .obj (mkObj
    [("type", encReq prStr d.type),
     ("crossSections", encReq (prDict serializeCrossSection) d.crossSections),
     ("orthographicProjection", encOpt prBool none d.orthographicProjection)])

@[simp] theorem parseDataPanelLayout_serialize (d : DataPanelLayout) :
    parseDataPanelLayout (serializeDataPanelLayout d) = .ok d := by
  obtain ⟨ty, cs, op⟩ := d
  simp only [serializeDataPanelLayout, parseDataPanelLayout]
  simp +decide [dataPanelLayoutKeys]

@[simp] theorem serializeDataPanelLayout_isNull (d : DataPanelLayout) :
    (serializeDataPanelLayout d).isNull = false := rfl

/-- Source: `class LayerGroupViewer(Model)` — all fields required. -/
structure LayerGroupViewer where
  type : String
  layers : List String
  layout : DataPanelLayout
  position : Linked (List ℚ)
  crossSectionOrientation : Linked Quaternion
  crossSectionScale : Linked ℚ
  crossSectionDepth : Linked ℚ
  projectionOrientation : Linked Quaternion
  projectionScale : Linked ℚ
  projectionDepth : Linked ℚ
deriving DecidableEq

def layerGroupViewerKeys : List String :=
  ["type", "layers", "layout", "position", "crossSectionOrientation",
   "crossSectionScale", "crossSectionDepth", "projectionOrientation",
   "projectionScale", "projectionDepth"]

def parseLayerGroupViewer : J → Vres LayerGroupViewer
  | .obj kvs =>
    withExtra (extraErrs kvs layerGroupViewerKeys)
      ((vmerge (reqFieldVal "type" pStr (getKey kvs "type"))
       (vmerge (reqFieldVal "layers" (pList pStr) (getKey kvs "layers"))
       (vmerge (reqFieldVal "layout" parseDataPanelLayout (getKey kvs "layout"))
       (vmerge (reqFieldVal "position" (parseLinked (pList pFloat)) (getKey kvs "position"))
       (vmerge (reqFieldVal "crossSectionOrientation" (parseLinked pQuadQ)
                 (getKey kvs "crossSectionOrientation"))
       (vmerge (reqFieldVal "crossSectionScale" (parseLinked pFloat)
                 (getKey kvs "crossSectionScale"))
       (vmerge (reqFieldVal "crossSectionDepth" (parseLinked pFloat)
                 (getKey kvs "crossSectionDepth"))
       (vmerge (reqFieldVal "projectionOrientation" (parseLinked pQuadQ)
                 (getKey kvs "projectionOrientation"))
       (vmerge (reqFieldVal "projectionScale" (parseLinked pFloat)
                 (getKey kvs "projectionScale"))
               (reqFieldVal "projectionDepth" (parseLinked pFloat)
                 (getKey kvs "projectionDepth"))))))))))).map
        fun t => ⟨t.1, t.2.1, t.2.2.1, t.2.2.2.1, t.2.2.2.2.1, t.2.2.2.2.2.1,
          t.2.2.2.2.2.2.1, t.2.2.2.2.2.2.2.1, t.2.2.2.2.2.2.2.2.1,
          t.2.2.2.2.2.2.2.2.2⟩)
  | _ => err1 [] "value is not a valid dict"

/-- Modelled from the spec: serialization of a `LayerGroupViewer`. -/
def serializeLayerGroupViewer (v : LayerGroupViewer) : J :=
  .obj (mkObj
    [("type", encReq prStr v.type),
     ("layers", encReq (prList prStr) v.layers),
     ("layout", encReq serializeDataPanelLayout v.layout),
     ("position", encReq (serializeLinked (prList prFloat)) v.position),
     ("crossSectionOrientation", encReq (serializeLinked prQuadQ) v.crossSectionOrientation),
     ("crossSectionScale", encReq (serializeLinked prFloat) v.crossSectionScale),
     ("crossSectionDepth", encReq (serializeLinked prFloat) v.crossSectionDepth),
     ("projectionOrientation", encReq (serializeLinked prQuadQ) v.projectionOrientation),
     ("projectionScale", encReq (serializeLinked prFloat) v.projectionScale),
     ("projectionDepth", encReq (serializeLinked prFloat) v.projectionDepth)])

@[simp] theorem parseLayerGroupViewer_serialize (v : LayerGroupViewer) :
    parseLayerGroupViewer (serializeLayerGroupViewer v) = .ok v := by
  obtain ⟨ty, ls, lo, po, co, cs, cd, pro, ps, pd⟩ := v
  simp only [serializeLayerGroupViewer, parseLayerGroupViewer]
  simp +decide [layerGroupViewerKeys]

@[simp] theorem serializeLayerGroupViewer_isNull (v : LayerGroupViewer) :
    (serializeLayerGroupViewer v).isNull = false := rfl

/-- Source: `LayoutSpecification = Union[str, LayerGroupViewer,
DataPanelLayout]` — note `StackLayout` is NOT a member of this union (it is
defined after this alias in the source). -/
inductive LayoutSpecification where
  | strv (s : String)
  | lgv (v : LayerGroupViewer)
  | dpl (d : DataPanelLayout)
deriving DecidableEq

def parseLayoutSpecification (j : J) : Vres LayoutSpecification :=
  match pStr j with
  | .ok s => .ok (.strv s)
  | .error e1 =>
    match parseLayerGroupViewer j with
    | .ok v => .ok (.lgv v)
    | .error e2 =>
      match parseDataPanelLayout j with
      | .ok d => .ok (.dpl d)
      | .error e3 => .error (e1 ++ e2 ++ e3)

/-- Modelled from the spec: serialization of a `LayoutSpecification`. -/
def serializeLayoutSpecification : LayoutSpecification → J
  | .strv s => prStr s
  | .lgv v => serializeLayerGroupViewer v
  | .dpl d => serializeDataPanelLayout d

/-- A `LayerGroupViewer` needs its required `layers` key. -/
theorem parseLayerGroupViewer_err (kvs : List (String × J))
    (h : getKey kvs "layers" = none) :
    ∃ es, parseLayerGroupViewer (.obj kvs) = .error es := by
  rcases hr : parseLayerGroupViewer (.obj kvs) with es | a
  · exact ⟨es, rfl⟩
  · exfalso
    rw [parseLayerGroupViewer, withExtra_ok_iff] at hr
    obtain ⟨-, hr⟩ := hr
    rw [vresMap_ok_iff] at hr
    obtain ⟨t, hr, -⟩ := hr
    rw [vmerge_ok_iff] at hr
    obtain ⟨-, hr⟩ := hr
    rw [vmerge_ok_iff] at hr
    obtain ⟨hp, -⟩ := hr
    rw [h] at hp
    simp [reqFieldVal, err1] at hp

theorem parseLGV_on_serializedDPL (d : DataPanelLayout) :
    ∃ es, parseLayerGroupViewer (serializeDataPanelLayout d) = .error es := by
  obtain ⟨ty, cs, op⟩ := d
  simp only [serializeDataPanelLayout]
  exact parseLayerGroupViewer_err _ (by simp +decide)

@[simp] theorem parseLayoutSpecification_serialize (l : LayoutSpecification) :
    parseLayoutSpecification (serializeLayoutSpecification l) = .ok l := by
  cases l with
  | strv s => simp [serializeLayoutSpecification, parseLayoutSpecification, prStr, pStr]
  | lgv v =>
    simp only [serializeLayoutSpecification, parseLayoutSpecification]
    rw [show pStr (serializeLayerGroupViewer v) = err1 [] "str type expected" from rfl]
    simp [err1]
  | dpl d =>
    simp only [serializeLayoutSpecification, parseLayoutSpecification]
    obtain ⟨es, hes⟩ := parseLGV_on_serializedDPL d
    rw [show pStr (serializeDataPanelLayout d) = err1 [] "str type expected" from rfl,
      hes]
    simp [err1]

@[simp] theorem serializeLayoutSpecification_isNull (l : LayoutSpecification) :
    (serializeLayoutSpecification l).isNull = false := by
  cases l <;> rfl

@[simp] theorem pListLayoutSpecification_rt (l : List LayoutSpecification) :
    pList parseLayoutSpecification (prList serializeLayoutSpecification l) = .ok l :=
  pList_prList _ _ parseLayoutSpecification_serialize l

/-- Source: `class StackLayout(Model)` with `type: Literal["row", "column"]`
and `children: List[LayoutSpecification]` — note: no non-emptiness
constraint on `children`, and the element union cannot contain a
`StackLayout`. -/
structure StackLayout where
  type : StackType
  children : List LayoutSpecification
deriving DecidableEq

def stackLayoutKeys : List String := ["type", "children"]

def parseStackLayout : J → Vres StackLayout
  | .obj kvs =>
    withExtra (extraErrs kvs stackLayoutKeys)
      ((vmerge (reqFieldVal "type" (pLitOf stackTypeLits) (getKey kvs "type"))
               (reqFieldVal "children" (pList parseLayoutSpecification)
                 (getKey kvs "children"))).map
        fun t => ⟨t.1, t.2⟩)
  | _ => err1 [] "value is not a valid dict"

/-- Modelled from the spec: serialization of a `StackLayout`. -/
def serializeStackLayout (s : StackLayout) : J :=
  .obj (mkObj
    [("type", encReq prLitOf s.type),
     ("children", encReq (prList serializeLayoutSpecification) s.children)])

@[simp] theorem parseStackLayout_serialize (s : StackLayout) :
    parseStackLayout (serializeStackLayout s) = .ok s := by
  obtain ⟨ty, ch⟩ := s
  simp only [serializeStackLayout, parseStackLayout]
  simp +decide [stackLayoutKeys]

/-! ### The top-level ViewerState -/

@[simp] theorem serializeStatisticsDisplayState_isNull (s : StatisticsDisplayState) :
    (serializeStatisticsDisplayState s).isNull = false := rfl

@[simp] theorem serializeHelpPanelState_isNull (s : HelpPanelState) :
    (serializeHelpPanelState s).isNull = false := rfl

@[simp] theorem serializeLayerListPanelState_isNull (s : LayerListPanelState) :
    (serializeLayerListPanelState s).isNull = false := rfl

/-- Source: `class ViewerState(Model)`, the root document model.  The field
`projectionDeth` reproduces the source's spelling; `layers` and `layout` are
the only required fields; `partialViewport` defaults to `(0, 0, 1, 1)`. -/
structure ViewerState where
  title : Option String
  dimensions : Option CoordinateSpace
  relativeDisplayScales : Option (List (String × ℚ))
  displayDimensions : Option (List String)
  position : Option PointType
  crossSectionOrientation : Option Quaternion
  crossSectionScale : Option ℚ
  crossSectionDepth : Option ℚ
  projectionScale : Option ℚ
  projectionDeth : Option ℚ
  projectionOrientation : Option Quaternion
  showSlices : Option Bool
  showAxisLines : Option Bool
  showScaleBar : Option Bool
  showDefaultAnnotations : Option Bool
  gpuMemoryLimit : Option ℤ
  systemMemoryLimit : Option ℤ
  concurrentDownloads : Option ℤ
  prefetch : Option Bool
  layers : List LayerType
  layout : LayoutSpecification
  crossSectionBackgroundColor : Option String
  projectionBackgroundColor : Option String
  selectedLayer : Option SelectedLayerState
  statistics : Option StatisticsDisplayState
  helpPanel : Option HelpPanelState
  layerListPanel : Option LayerListPanelState
  partialViewport : Option Quaternion
  selection : Option (List (String × ℤ))
deriving DecidableEq

def viewerStateKeys : List String :=
  ["title", "dimensions", "relativeDisplayScales", "displayDimensions", "position",
   "crossSectionOrientation", "crossSectionScale", "crossSectionDepth",
   "projectionScale", "projectionDeth", "projectionOrientation", "showSlices",
   "showAxisLines", "showScaleBar", "showDefaultAnnotations", "gpuMemoryLimit",
   "systemMemoryLimit", "concurrentDownloads", "prefetch", "layers", "layout",
   "crossSectionBackgroundColor", "projectionBackgroundColor", "selectedLayer",
   "statistics", "helpPanel", "layerListPanel", "partialViewport", "selection"]

/-- Validation of a whole viewer-state document: the entry point
`validate(document)`. -/
def parseViewerState : J → Vres ViewerState
  | .obj kvs =>
    withExtra (extraErrs kvs viewerStateKeys)
      ((vmerge (optFieldVal "title" pStr none (getKey kvs "title"))
       (vmerge (optFieldVal "dimensions" pCoordinateSpace none (getKey kvs "dimensions"))
       (vmerge (optFieldVal "relativeDisplayScales" (pDict pFloat) none
                 (getKey kvs "relativeDisplayScales"))
       (vmerge (optFieldVal "displayDimensions" (pList pStr) none
                 (getKey kvs "displayDimensions"))
       (vmerge (optFieldVal "position" pTripleQ none (getKey kvs "position"))
       (vmerge (optFieldVal "crossSectionOrientation" pQuadQ none
                 (getKey kvs "crossSectionOrientation"))
       (vmerge (optFieldVal "crossSectionScale" pFloat none (getKey kvs "crossSectionScale"))
       (vmerge (optFieldVal "crossSectionDepth" pFloat none (getKey kvs "crossSectionDepth"))
       (vmerge (optFieldVal "projectionScale" pFloat none (getKey kvs "projectionScale"))
       (vmerge (optFieldVal "projectionDeth" pFloat none (getKey kvs "projectionDeth"))
       (vmerge (optFieldVal "projectionOrientation" pQuadQ none
                 (getKey kvs "projectionOrientation"))
       (vmerge (optFieldVal "showSlices" pBool (some true) (getKey kvs "showSlices"))
       (vmerge (optFieldVal "showAxisLines" pBool (some true) (getKey kvs "showAxisLines"))
       (vmerge (optFieldVal "showScaleBar" pBool (some true) (getKey kvs "showScaleBar"))
       (vmerge (optFieldVal "showDefaultAnnotations" pBool (some true)
                 (getKey kvs "showDefaultAnnotations"))
       (vmerge (optFieldVal "gpuMemoryLimit" pInt none (getKey kvs "gpuMemoryLimit"))
       (vmerge (optFieldVal "systemMemoryLimit" pInt none (getKey kvs "systemMemoryLimit"))
       (vmerge (optFieldVal "concurrentDownloads" pInt none
                 (getKey kvs "concurrentDownloads"))
       (vmerge (optFieldVal "prefetch" pBool (some true) (getKey kvs "prefetch"))
       (vmerge (reqFieldVal "layers" (pList parseLayerType) (getKey kvs "layers"))
       (vmerge (reqFieldVal "layout" parseLayoutSpecification (getKey kvs "layout"))
       (vmerge (optFieldVal "crossSectionBackgroundColor" pStr none
                 (getKey kvs "crossSectionBackgroundColor"))
       (vmerge (optFieldVal "projectionBackgroundColor" pStr none
                 (getKey kvs "projectionBackgroundColor"))
       (vmerge (optFieldVal "selectedLayer" parseSelectedLayerState none
                 (getKey kvs "selectedLayer"))
       (vmerge (optFieldVal "statistics" parseStatisticsDisplayState none
                 (getKey kvs "statistics"))
       (vmerge (optFieldVal "helpPanel" parseHelpPanelState none (getKey kvs "helpPanel"))
       (vmerge (optFieldVal "layerListPanel" parseLayerListPanelState none
                 (getKey kvs "layerListPanel"))
       (vmerge (optFieldVal "partialViewport" pQuadQ
                 (some ((0 : ℚ), (0 : ℚ), (1 : ℚ), (1 : ℚ))) (getKey kvs "partialViewport"))
               (optFieldVal "selection" (pDict pInt) none
                 (getKey kvs "selection")))))))))))))))))))))))))))))).map
        fun t => ⟨t.1, t.2.1, t.2.2.1, t.2.2.2.1, t.2.2.2.2.1, t.2.2.2.2.2.1,
          t.2.2.2.2.2.2.1, t.2.2.2.2.2.2.2.1, t.2.2.2.2.2.2.2.2.1,
          t.2.2.2.2.2.2.2.2.2.1, t.2.2.2.2.2.2.2.2.2.2.1,
          t.2.2.2.2.2.2.2.2.2.2.2.1, t.2.2.2.2.2.2.2.2.2.2.2.2.1,
          t.2.2.2.2.2.2.2.2.2.2.2.2.2.1, t.2.2.2.2.2.2.2.2.2.2.2.2.2.2.1,
          t.2.2.2.2.2.2.2.2.2.2.2.2.2.2.2.1,
          t.2.2.2.2.2.2.2.2.2.2.2.2.2.2.2.2.1,
          t.2.2.2.2.2.2.2.2.2.2.2.2.2.2.2.2.2.1,
          t.2.2.2.2.2.2.2.2.2.2.2.2.2.2.2.2.2.2.1,
          t.2.2.2.2.2.2.2.2.2.2.2.2.2.2.2.2.2.2.2.1,
          t.2.2.2.2.2.2.2.2.2.2.2.2.2.2.2.2.2.2.2.2.1,
          t.2.2.2.2.2.2.2.2.2.2.2.2.2.2.2.2.2.2.2.2.2.1,
          t.2.2.2.2.2.2.2.2.2.2.2.2.2.2.2.2.2.2.2.2.2.2.1,
          t.2.2.2.2.2.2.2.2.2.2.2.2.2.2.2.2.2.2.2.2.2.2.2.1,
          t.2.2.2.2.2.2.2.2.2.2.2.2.2.2.2.2.2.2.2.2.2.2.2.2.1,
          t.2.2.2.2.2.2.2.2.2.2.2.2.2.2.2.2.2.2.2.2.2.2.2.2.2.1,
          t.2.2.2.2.2.2.2.2.2.2.2.2.2.2.2.2.2.2.2.2.2.2.2.2.2.2.1,
          t.2.2.2.2.2.2.2.2.2.2.2.2.2.2.2.2.2.2.2.2.2.2.2.2.2.2.2.1,
          t.2.2.2.2.2.2.2.2.2.2.2.2.2.2.2.2.2.2.2.2.2.2.2.2.2.2.2.2⟩)
  | _ => err1 [] "value is not a valid dict"

/-- Modelled from the spec: `serialize(ViewerState) -> document`, the
structural inverse of `validate`.  A field is omitted exactly when its value
equals its declared default (in particular every field the source document
omitted, whose value the validator filled with that default); an explicit
`None` is serialized as null. -/
def serializeViewerState (s : ViewerState) : J :=
  .obj (mkObj
    [("title", encOpt prStr none s.title),
     ("dimensions", encOpt prCoordinateSpace none s.dimensions),
     ("relativeDisplayScales", encOpt (prDict prFloat) none s.relativeDisplayScales),
     ("displayDimensions", encOpt (prList prStr) none s.displayDimensions),
     ("position", encOpt prTripleQ none s.position),
     ("crossSectionOrientation", encOpt prQuadQ none s.crossSectionOrientation),
     ("crossSectionScale", encOpt prFloat none s.crossSectionScale),
     ("crossSectionDepth", encOpt prFloat none s.crossSectionDepth),
     ("projectionScale", encOpt prFloat none s.projectionScale),
     ("projectionDeth", encOpt prFloat none s.projectionDeth),
     ("projectionOrientation", encOpt prQuadQ none s.projectionOrientation),
     ("showSlices", encOpt prBool (some true) s.showSlices),
     ("showAxisLines", encOpt prBool (some true) s.showAxisLines),
     ("showScaleBar", encOpt prBool (some true) s.showScaleBar),
     ("showDefaultAnnotations", encOpt prBool (some true) s.showDefaultAnnotations),
     ("gpuMemoryLimit", encOpt prInt none s.gpuMemoryLimit),
     ("systemMemoryLimit", encOpt prInt none s.systemMemoryLimit),
     ("concurrentDownloads", encOpt prInt none s.concurrentDownloads),
     ("prefetch", encOpt prBool (some true) s.prefetch),
     ("layers", encReq (prList serializeLayerType) s.layers),
     ("layout", encReq serializeLayoutSpecification s.layout),
     ("crossSectionBackgroundColor", encOpt prStr none s.crossSectionBackgroundColor),
     ("projectionBackgroundColor", encOpt prStr none s.projectionBackgroundColor),
     ("selectedLayer", encOpt serializeSelectedLayerState none s.selectedLayer),
     ("statistics", encOpt serializeStatisticsDisplayState none s.statistics),
     ("helpPanel", encOpt serializeHelpPanelState none s.helpPanel),
     ("layerListPanel", encOpt serializeLayerListPanelState none s.layerListPanel),
     ("partialViewport", encOpt prQuadQ (some ((0 : ℚ), (0 : ℚ), (1 : ℚ), (1 : ℚ)))
       s.partialViewport),
     ("selection", encOpt (prDict prInt) none s.selection)])

/-- Round trip: validating the serialization of any (representable)
viewer state recovers that state exactly. -/
theorem parseViewerState_serialize (s : ViewerState) :
    parseViewerState (serializeViewerState s) = .ok s := by
  obtain ⟨t1, t2, t3, t4, t5, t6, t7, t8, t9, t10, t11, t12, t13, t14, t15, t16,
    t17, t18, t19, t20, t21, t22, t23, t24, t25, t26, t27, t28, t29⟩ := s
  simp only [serializeViewerState, parseViewerState]
  simp +decide [viewerStateKeys]

/-! ### Failures always carry at least one error

`NEok r` states that if the result `r` is a failure, its error list is
non-empty.  It is proved for every validator, culminating in
`NEok_parseViewerState`: the entry point never reports failure with an empty
error list. -/

def NEok {α : Type} (r : Vres α) : Prop := ∀ es, r = .error es → es ≠ []

theorem errsAppend_ne_left {es1 es2 : Errs} (h : es1 ≠ []) : es1 ++ es2 ≠ [] := by
  intro hc
  rw [List.append_eq_nil] at hc
  exact h hc.1

theorem NEok_ok {α : Type} (a : α) : NEok (.ok a : Vres α) := by
  intro es h
  cases h

theorem NEok_err1 {α : Type} (loc : List String) (msg : String) :
    NEok (err1 loc msg : Vres α) := by
  intro es h
  cases h
  simp

theorem NEok_errAt {α : Type} {k : String} {r : Vres α} (h : NEok r) :
    NEok (errAt k r) := by
  intro es he
  cases r with
  | ok a => cases he
  | error es0 =>
    have := h es0 rfl
    cases he
    simpa using this

theorem NEok_map {α β : Type} {f : α → β} {r : Vres α} (h : NEok r) :
    NEok (Except.map f r) := by
  intro es he
  cases r with
  | ok a => cases he
  | error es0 => cases he; exact h _ rfl

theorem NEok_vmerge {α β : Type} {r1 : Vres α} {r2 : Vres β}
    (h1 : NEok r1) (h2 : NEok r2) : NEok (vmerge r1 r2) := by
  intro es he
  cases r1 with
  | ok a =>
    cases r2 with
    | ok b => cases he
    | error es2 => cases he; exact h2 _ rfl
  | error es1 =>
    cases r2 with
    | ok b => cases he; exact h1 _ rfl
    | error es2 => cases he; exact errsAppend_ne_left (h1 _ rfl)

theorem NEok_withExtra {α : Type} {e : Errs} {r : Vres α} (h : NEok r) :
    NEok (withExtra e r) := by
  intro es he
  cases r with
  | ok a =>
    cases e with
    | nil => cases he
    | cons x xs => cases he; simp
  | error es0 => cases he; exact errsAppend_ne_left (h _ rfl)

theorem NEok_reqFieldVal {α : Type} {k : String} {p : J → Vres α}
    (hp : ∀ v, NEok (p v)) (o : Option J) : NEok (reqFieldVal k p o) := by
  cases o with
  | none => exact NEok_err1 _ _
  | some jv => exact NEok_errAt (hp jv)

theorem NEok_optFieldVal {α : Type} {k : String} {p : J → Vres α} {dflt : Option α}
    (hp : ∀ v, NEok (p v)) (o : Option J) : NEok (optFieldVal k p dflt o) := by
  cases o with
  | none => exact NEok_ok _
  | some jv =>
    simp only [optFieldVal]
    by_cases h : jv.isNull
    · simp [h]; exact NEok_ok _
    · simp [h]; exact NEok_errAt (NEok_map (hp jv))

theorem NEok_dfltFieldVal {α : Type} {k : String} {p : J → Vres α} {d : α}
    (hp : ∀ v, NEok (p v)) (o : Option J) : NEok (dfltFieldVal k p d o) := by
  cases o with
  | none => exact NEok_ok _
  | some jv => exact NEok_errAt (hp jv)

theorem NEok_parseElems {α : Type} {p : J → Vres α} (hp : ∀ v, NEok (p v)) :
    ∀ (i : Nat) (xs : List J), NEok (parseElems p i xs)
  | _, [] => NEok_ok _
  | i, x :: rest =>
    NEok_map (NEok_vmerge (NEok_errAt (hp x)) (NEok_parseElems hp (i + 1) rest))

theorem NEok_pList {α : Type} {p : J → Vres α} (hp : ∀ v, NEok (p v)) (j : J) :
    NEok (pList p j) := by
  cases j
  case arr xs => exact NEok_parseElems hp 0 xs
  all_goals exact NEok_err1 _ _

theorem NEok_parseEntries {α : Type} {p : J → Vres α} (hp : ∀ v, NEok (p v)) :
    ∀ kvs : List (String × J), NEok (parseEntries p kvs)
  | [] => NEok_ok _
  | (k, v) :: rest =>
    NEok_map (NEok_vmerge (NEok_errAt (hp v)) (NEok_parseEntries hp rest))

theorem NEok_pDict {α : Type} {p : J → Vres α} (hp : ∀ v, NEok (p v)) (j : J) :
    NEok (pDict p j) := by
  cases j
  case obj kvs => exact NEok_parseEntries hp kvs
  all_goals exact NEok_err1 _ _

theorem NEok_parseIntEntries {α : Type} {p : J → Vres α} (hp : ∀ v, NEok (p v)) :
    ∀ kvs : List (String × J), NEok (parseIntEntries p kvs)
  | [] => NEok_ok _
  | (k, v) :: rest => by
    refine NEok_map (NEok_vmerge ?_ (NEok_parseIntEntries hp rest))
    cases strToInt? k with
    | none => exact NEok_err1 _ _
    | some i => exact NEok_map (NEok_errAt (hp v))

theorem NEok_pIntDict {α : Type} {p : J → Vres α} (hp : ∀ v, NEok (p v)) (j : J) :
    NEok (pIntDict p j) := by
  cases j
  case obj kvs => exact NEok_parseIntEntries hp kvs
  all_goals exact NEok_err1 _ _

theorem NEok_pStr (j : J) : NEok (pStr j) := by
  cases j
  case str s => exact NEok_ok _
  all_goals exact NEok_err1 _ _

theorem NEok_pBool (j : J) : NEok (pBool j) := by
  cases j
  case bool b => exact NEok_ok _
  all_goals exact NEok_err1 _ _

theorem NEok_pFloat (j : J) : NEok (pFloat j) := by
  cases j
  case num q => exact NEok_ok _
  all_goals exact NEok_err1 _ _

theorem NEok_pInt (j : J) : NEok (pInt j) := by
  cases j
  case num q =>
    simp only [pInt]
    by_cases h : q.den = 1
    · simp [h]; exact NEok_ok _
    · simp [h]; exact NEok_err1 _ _
  all_goals exact NEok_err1 _ _

theorem NEok_pLitOf (lits : List String) (j : J) : NEok (pLitOf lits j) := by
  cases j
  case str s =>
    simp only [pLitOf]
    by_cases h : lits.contains s = true
    · rw [dif_pos h]; exact NEok_ok _
    · rw [dif_neg h]; exact NEok_err1 _ _
  all_goals exact NEok_err1 _ _

theorem NEok_pPairQ (j : J) : NEok (pPairQ j) := by
  unfold pPairQ
  split
  · exact NEok_ok _
  · exact NEok_err1 _ _

theorem NEok_pTripleQ (j : J) : NEok (pTripleQ j) := by
  unfold pTripleQ
  split
  · exact NEok_ok _
  · exact NEok_err1 _ _

theorem NEok_pQuadQ (j : J) : NEok (pQuadQ j) := by
  unfold pQuadQ
  split
  · exact NEok_ok _
  · exact NEok_err1 _ _

theorem NEok_pPairFS (j : J) : NEok (pPairFS j) := by
  unfold pPairFS
  split
  · exact NEok_ok _
  · exact NEok_err1 _ _

theorem NEok_pStrOrFalse (j : J) : NEok (pStrOrFalse j) := by
  unfold pStrOrFalse
  split
  · exact NEok_ok _
  · rename_i e1 h1
    split
    · exact NEok_ok _
    · intro es he
      cases he
      exact errsAppend_ne_left (NEok_pStr _ e1 h1)

theorem NEok_pStrOrNull (j : J) : NEok (pStrOrNull j) := by
  unfold pStrOrNull
  by_cases h : j.isNull
  · rw [if_pos h]; exact NEok_ok _
  · rw [if_neg h]; exact NEok_map (NEok_pStr _)

theorem NEok_pIntOrStr (j : J) : NEok (pIntOrStr j) := by
  unfold pIntOrStr
  split
  · exact NEok_ok _
  · rename_i e1 h1
    split
    · exact NEok_ok _
    · intro es he
      cases he
      exact errsAppend_ne_left (NEok_pInt _ e1 h1)

theorem NEok_pFloatOrStr (j : J) : NEok (pFloatOrStr j) := by
  unfold pFloatOrStr
  split
  · exact NEok_ok _
  · rename_i e1 h1
    split
    · exact NEok_ok _
    · intro es he
      cases he
      exact errsAppend_ne_left (NEok_pFloat _ e1 h1)

theorem NEok_parseCoordinateArray (j : J) : NEok (parseCoordinateArray j) := by
  cases j
  case obj kvs =>
    exact NEok_withExtra (NEok_map (NEok_vmerge
      (NEok_reqFieldVal (NEok_pList NEok_pStr) _)
      (NEok_reqFieldVal (NEok_pList NEok_pStr) _)))
  all_goals exact NEok_err1 _ _

theorem NEok_pTupleNNC (j : J) : NEok (pTupleNNC j) := by
  unfold pTupleNNC
  split
  · exact NEok_errAt (NEok_parseCoordinateArray _)
  · exact NEok_err1 _ _

theorem NEok_pDimensionScale (j : J) : NEok (pDimensionScale j) := by
  unfold pDimensionScale
  split
  · exact NEok_ok _
  · rename_i e1 h1
    split
    · exact NEok_ok _
    · intro es he
      cases he
      exact errsAppend_ne_left (NEok_pPairFS _ e1 h1)

theorem NEok_pCoordinateSpace (j : J) : NEok (pCoordinateSpace j) :=
  NEok_pDict NEok_pDimensionScale j

theorem NEok_parseCoordinateSpaceTransform (j : J) :
    NEok (parseCoordinateSpaceTransform j) := by
  cases j
  case obj kvs =>
    exact NEok_withExtra (NEok_map (NEok_vmerge
      (NEok_reqFieldVal NEok_pCoordinateSpace _)
      (NEok_vmerge (NEok_optFieldVal NEok_pCoordinateSpace _)
      (NEok_vmerge (NEok_optFieldVal NEok_pInt _)
        (NEok_reqFieldVal (NEok_pList (NEok_pList NEok_pInt)) _)))))
  all_goals exact NEok_err1 _ _

theorem NEok_parseLayerDataSource (j : J) : NEok (parseLayerDataSource j) := by
  cases j
  case obj kvs =>
    exact NEok_withExtra (NEok_map (NEok_vmerge
      (NEok_reqFieldVal NEok_pStr _)
      (NEok_vmerge (NEok_optFieldVal NEok_parseCoordinateSpaceTransform _)
      (NEok_vmerge (NEok_reqFieldVal (NEok_pDict NEok_pBool) _)
        (NEok_optFieldVal NEok_pBool _)))))
  all_goals exact NEok_err1 _ _

theorem NEok_pSourceEntry (j : J) : NEok (pSourceEntry j) := by
  unfold pSourceEntry
  split
  · exact NEok_ok _
  · rename_i e1 h1
    split
    · exact NEok_ok _
    · intro es he
      cases he
      exact errsAppend_ne_left (NEok_pStr _ e1 h1)

theorem NEok_pLayerSource (j : J) : NEok (pLayerSource j) := by
  unfold pLayerSource
  split
  · exact NEok_ok _
  · rename_i e1 h1
    split
    · exact NEok_ok _
    · intro es he
      cases he
      exact errsAppend_ne_left (NEok_pList NEok_pSourceEntry _ e1 h1)

theorem NEok_parseInvlerpParameters (j : J) : NEok (parseInvlerpParameters j) := by
  cases j
  case obj kvs =>
    exact NEok_withExtra (NEok_map (NEok_vmerge
      (NEok_optFieldVal NEok_pPairQ _)
      (NEok_vmerge (NEok_optFieldVal NEok_pPairQ _)
        (NEok_optFieldVal (NEok_pList NEok_pInt) _))))
  all_goals exact NEok_err1 _ _

theorem NEok_parseShaderControls (j : J) : NEok (parseShaderControls j) := by
  unfold parseShaderControls
  split
  · exact NEok_ok _
  · rename_i e1 h1
    split
    · exact NEok_ok _
    · rename_i e2 h2
      split
      · exact NEok_ok _
      · rename_i e3 h3
        split
        · rename_i k v rest
          split
          · exact NEok_ok _
          · intro es he
            cases he
            exact errsAppend_ne_left (errsAppend_ne_left (errsAppend_ne_left
              (NEok_pFloat _ e1 h1)))
        · intro es he
          cases he
          exact errsAppend_ne_left (errsAppend_ne_left (NEok_pFloat _ e1 h1))

theorem NEok_parseSkeletonRenderingOptions (j : J) :
    NEok (parseSkeletonRenderingOptions j) := by
  cases j
  case obj kvs =>
    exact NEok_withExtra (NEok_map (NEok_vmerge
      (NEok_reqFieldVal NEok_pStr _)
      (NEok_vmerge (NEok_reqFieldVal NEok_parseShaderControls _)
      (NEok_vmerge (NEok_optFieldVal NEok_pStr _)
      (NEok_vmerge (NEok_optFieldVal NEok_pFloat _)
      (NEok_vmerge (NEok_optFieldVal NEok_pStr _)
        (NEok_optFieldVal NEok_pFloat _)))))))
  all_goals exact NEok_err1 _ _

theorem NEok_parseTool (j : J) : NEok (parseTool j) := by
  cases j
  case obj kvs =>
    exact NEok_withExtra (NEok_map (NEok_reqFieldVal (NEok_pLitOf toolNameLits) _))
  all_goals exact NEok_err1 _ _

theorem NEok_parseSidePanelCore (kvs : List (String × J)) :
    NEok (parseSidePanelCore kvs) :=
  NEok_map (NEok_vmerge (NEok_optFieldVal NEok_pFloat _)
    (NEok_vmerge (NEok_optFieldVal NEok_pStr _)
    (NEok_vmerge (NEok_optFieldVal NEok_pBool _)
    (NEok_vmerge (NEok_optFieldVal NEok_pInt _)
    (NEok_vmerge (NEok_optFieldVal NEok_pInt _)
      (NEok_optFieldVal NEok_pInt _))))))

theorem NEok_parseSidePanelLocation (j : J) : NEok (parseSidePanelLocation j) := by
  cases j
  case obj kvs => exact NEok_withExtra (NEok_parseSidePanelCore kvs)
  all_goals exact NEok_err1 _ _

theorem NEok_parseSelectedLayerState (j : J) : NEok (parseSelectedLayerState j) := by
  cases j
  case obj kvs =>
    exact NEok_withExtra (NEok_map (NEok_vmerge (NEok_parseSidePanelCore kvs)
      (NEok_optFieldVal NEok_pStr _)))
  all_goals exact NEok_err1 _ _

theorem NEok_parseLayerSidePanelState (j : J) : NEok (parseLayerSidePanelState j) := by
  cases j
  case obj kvs =>
    exact NEok_withExtra (NEok_map (NEok_vmerge (NEok_parseSidePanelCore kvs)
      (NEok_vmerge (NEok_optFieldVal NEok_pStr _)
        (NEok_reqFieldVal (NEok_pList NEok_pStr) _))))
  all_goals exact NEok_err1 _ _

theorem NEok_parseLayerCommon (kvs : List (String × J)) :
    NEok (parseLayerCommon kvs) :=
  NEok_map (NEok_vmerge (NEok_reqFieldVal NEok_pLayerSource _)
    (NEok_vmerge (NEok_reqFieldVal NEok_pStr _)
    (NEok_vmerge (NEok_optFieldVal NEok_pBool _)
    (NEok_vmerge (NEok_optFieldVal NEok_pStr _)
    (NEok_vmerge (NEok_optFieldVal NEok_pCoordinateSpace _)
    (NEok_vmerge (NEok_optFieldVal NEok_pFloat _)
    (NEok_vmerge (NEok_optFieldVal (NEok_pList NEok_parseLayerSidePanelState) _)
    (NEok_vmerge (NEok_optFieldVal NEok_pBool _)
    (NEok_vmerge (NEok_optFieldVal (NEok_pDict NEok_parseTool) _)
      (NEok_optFieldVal NEok_parseTool _))))))))))

theorem NEok_parseImageLayer (j : J) : NEok (parseImageLayer j) := by
  cases j
  case obj kvs =>
    exact NEok_withExtra (NEok_map (NEok_vmerge
      (NEok_reqFieldVal (NEok_pLitOf _) _)
      (NEok_vmerge (NEok_parseLayerCommon kvs)
      (NEok_vmerge (NEok_optFieldVal NEok_pStr _)
      (NEok_vmerge (NEok_optFieldVal NEok_parseShaderControls _)
      (NEok_vmerge (NEok_dfltFieldVal NEok_pFloat _)
      (NEok_vmerge (NEok_optFieldVal NEok_pStr _)
        (NEok_optFieldVal NEok_pFloat _))))))))
  all_goals exact NEok_err1 _ _

theorem NEok_parseSegmentationLayer (j : J) : NEok (parseSegmentationLayer j) := by
  cases j
  case obj kvs =>
    exact NEok_withExtra (NEok_map (NEok_vmerge
      (NEok_reqFieldVal (NEok_pLitOf _) _)
      (NEok_vmerge (NEok_parseLayerCommon kvs)
      (NEok_vmerge (NEok_optFieldVal (NEok_pList NEok_pStr) _)
      (NEok_vmerge (NEok_optFieldVal (NEok_pIntDict NEok_pInt) _)
      (NEok_vmerge (NEok_optFieldVal NEok_pBool _)
      (NEok_vmerge (NEok_optFieldVal NEok_pFloat _)
      (NEok_vmerge (NEok_optFieldVal NEok_pFloat _)
      (NEok_vmerge (NEok_optFieldVal NEok_pFloat _)
      (NEok_vmerge (NEok_optFieldVal NEok_pFloat _)
      (NEok_vmerge (NEok_optFieldVal NEok_pBool _)
      (NEok_vmerge (NEok_optFieldVal NEok_parseSkeletonRenderingOptions _)
      (NEok_vmerge (NEok_optFieldVal NEok_pInt _)
      (NEok_vmerge (NEok_optFieldVal NEok_pFloat _)
      (NEok_vmerge (NEok_optFieldVal NEok_pFloat _)
      (NEok_vmerge (NEok_optFieldVal NEok_pFloat _)
      (NEok_vmerge (NEok_optFieldVal NEok_pStr _)
      (NEok_vmerge (NEok_optFieldVal (NEok_pIntDict NEok_pStr) _)
      (NEok_vmerge (NEok_optFieldVal NEok_pStr _)
      (NEok_vmerge (NEok_optFieldVal NEok_pStr _)
        (NEok_optFieldVal NEok_pStrOrFalse _)))))))))))))))))))))
  all_goals exact NEok_err1 _ _

theorem NEok_parseMeshLayer (j : J) : NEok (parseMeshLayer j) := by
  cases j
  case obj kvs =>
    exact NEok_withExtra (NEok_map (NEok_vmerge
      (NEok_reqFieldVal (NEok_pLitOf _) _)
      (NEok_vmerge (NEok_reqFieldVal NEok_pStr _)
      (NEok_vmerge (NEok_parseLayerCommon kvs)
      (NEok_vmerge (NEok_optFieldVal (NEok_pList NEok_pStr) _)
        (NEok_optFieldVal (NEok_pList NEok_pStrOrNull) _))))))
  all_goals exact NEok_err1 _ _

theorem NEok_parseNewLayer (j : J) : NEok (parseNewLayer j) := by
  cases j
  case obj kvs =>
    exact NEok_withExtra (NEok_map (NEok_vmerge
      (NEok_reqFieldVal (NEok_pLitOf _) _) (NEok_parseLayerCommon kvs)))
  all_goals exact NEok_err1 _ _

theorem NEok_parseAnnotationCommon (kvs : List (String × J)) :
    NEok (parseAnnotationCommon kvs) :=
  NEok_map (NEok_vmerge (NEok_optFieldVal NEok_pStr _)
    (NEok_vmerge (NEok_reqFieldVal NEok_pStr _)
    (NEok_vmerge (NEok_optFieldVal NEok_pStr _)
    (NEok_vmerge (NEok_optFieldVal (NEok_pList NEok_pInt) _)
      (NEok_reqFieldVal (NEok_pList NEok_pIntOrStr) _)))))

theorem NEok_parsePointAnn (j : J) : NEok (parsePointAnn j) := by
  cases j
  case obj kvs =>
    exact NEok_withExtra (NEok_map (NEok_vmerge
      (NEok_reqFieldVal (NEok_pList NEok_pFloat) _)
      (NEok_parseAnnotationCommon kvs)))
  all_goals exact NEok_err1 _ _

theorem NEok_parseLineAnn (j : J) : NEok (parseLineAnn j) := by
  cases j
  case obj kvs =>
    exact NEok_withExtra (NEok_map (NEok_vmerge
      (NEok_reqFieldVal (NEok_pList NEok_pFloat) _)
      (NEok_vmerge (NEok_reqFieldVal (NEok_pList NEok_pFloat) _)
        (NEok_parseAnnotationCommon kvs))))
  all_goals exact NEok_err1 _ _

theorem NEok_parseEllipsoidAnn (j : J) : NEok (parseEllipsoidAnn j) := by
  cases j
  case obj kvs =>
    exact NEok_withExtra (NEok_map (NEok_vmerge
      (NEok_reqFieldVal (NEok_pList NEok_pFloat) _)
      (NEok_vmerge (NEok_reqFieldVal (NEok_pList NEok_pFloat) _)
        (NEok_parseAnnotationCommon kvs))))
  all_goals exact NEok_err1 _ _

theorem NEok_parseAnnotationsU (j : J) : NEok (parseAnnotationsU j) := by
  unfold parseAnnotationsU
  split
  · exact NEok_ok _
  · rename_i e1 h1
    split
    · exact NEok_ok _
    · split
      · exact NEok_ok _
      · split
        · exact NEok_ok _
        · intro es he
          cases he
          exact errsAppend_ne_left (errsAppend_ne_left (errsAppend_ne_left
            (NEok_parsePointAnn _ e1 h1)))

theorem NEok_parseAnnotationPropertySpec (j : J) :
    NEok (parseAnnotationPropertySpec j) := by
  cases j
  case obj kvs =>
    exact NEok_withExtra (NEok_map (NEok_vmerge
      (NEok_reqFieldVal NEok_pStr _)
      (NEok_vmerge (NEok_reqFieldVal NEok_pStr _)
      (NEok_vmerge (NEok_optFieldVal NEok_pStr _)
      (NEok_vmerge (NEok_optFieldVal NEok_pFloatOrStr _)
      (NEok_vmerge (NEok_optFieldVal (NEok_pList NEok_pFloatOrStr) _)
        (NEok_optFieldVal (NEok_pList NEok_pStr) _)))))))
  all_goals exact NEok_err1 _ _

theorem NEok_parseAnnotationLayer (j : J) : NEok (parseAnnotationLayer j) := by
  cases j
  case obj kvs =>
    exact NEok_withExtra (NEok_map (NEok_vmerge
      (NEok_reqFieldVal (NEok_pLitOf _) _)
      (NEok_vmerge (NEok_parseLayerCommon kvs)
      (NEok_vmerge (NEok_optFieldVal NEok_pStr _)
      (NEok_vmerge (NEok_optFieldVal (NEok_pList NEok_parseAnnotationsU) _)
      (NEok_vmerge (NEok_optFieldVal (NEok_pList NEok_parseAnnotationPropertySpec) _)
      (NEok_vmerge (NEok_optFieldVal (NEok_pList NEok_pStr) _)
      (NEok_vmerge (NEok_reqFieldVal (NEok_pDict NEok_pStr) _)
      (NEok_vmerge (NEok_reqFieldVal (NEok_pList NEok_pStr) _)
      (NEok_vmerge (NEok_optFieldVal NEok_pBool _)
      (NEok_vmerge (NEok_optFieldVal NEok_pStr _)
        (NEok_optFieldVal NEok_parseShaderControls _))))))))))))
  all_goals exact NEok_err1 _ _

theorem NEok_parseLayerType (j : J) : NEok (parseLayerType j) := by
  cases j
  case obj kvs =>
    simp only [parseLayerType]
    split
    · exact NEok_err1 _ _
    · exact NEok_map (NEok_parseImageLayer _)
    · exact NEok_map (NEok_parseSegmentationLayer _)
    · exact NEok_map (NEok_parseAnnotationLayer _)
    · exact NEok_map (NEok_parseMeshLayer _)
    · exact NEok_map (NEok_parseNewLayer _)
    · exact NEok_err1 _ _
  all_goals exact NEok_err1 _ _

theorem NEok_parseLinked {T : Type} {pT : J → Vres T} (hp : ∀ v, NEok (pT v))
    (j : J) : NEok (parseLinked pT j) := by
  cases j
  case obj kvs =>
    exact NEok_map (NEok_vmerge (NEok_optFieldVal (NEok_pLitOf _) _)
      (NEok_optFieldVal hp _))
  all_goals exact NEok_err1 _ _

theorem NEok_parseCrossSection (j : J) : NEok (parseCrossSection j) := by
  cases j
  case obj kvs =>
    exact NEok_withExtra (NEok_map (NEok_vmerge
      (NEok_dfltFieldVal NEok_pInt _)
      (NEok_vmerge (NEok_dfltFieldVal NEok_pInt _)
      (NEok_vmerge (NEok_reqFieldVal (NEok_parseLinked (NEok_pList NEok_pFloat)) _)
      (NEok_vmerge (NEok_reqFieldVal (NEok_parseLinked NEok_pQuadQ) _)
        (NEok_reqFieldVal (NEok_parseLinked NEok_pFloat) _))))))
  all_goals exact NEok_err1 _ _

theorem NEok_parseDataPanelLayout (j : J) : NEok (parseDataPanelLayout j) := by
  cases j
  case obj kvs =>
    exact NEok_withExtra (NEok_map (NEok_vmerge
      (NEok_reqFieldVal NEok_pStr _)
      (NEok_vmerge (NEok_reqFieldVal (NEok_pDict NEok_parseCrossSection) _)
        (NEok_optFieldVal NEok_pBool _))))
  all_goals exact NEok_err1 _ _

theorem NEok_parseLayerGroupViewer (j : J) : NEok (parseLayerGroupViewer j) := by
  cases j
  case obj kvs =>
    exact NEok_withExtra (NEok_map (NEok_vmerge
      (NEok_reqFieldVal NEok_pStr _)
      (NEok_vmerge (NEok_reqFieldVal (NEok_pList NEok_pStr) _)
      (NEok_vmerge (NEok_reqFieldVal NEok_parseDataPanelLayout _)
      (NEok_vmerge (NEok_reqFieldVal (NEok_parseLinked (NEok_pList NEok_pFloat)) _)
      (NEok_vmerge (NEok_reqFieldVal (NEok_parseLinked NEok_pQuadQ) _)
      (NEok_vmerge (NEok_reqFieldVal (NEok_parseLinked NEok_pFloat) _)
      (NEok_vmerge (NEok_reqFieldVal (NEok_parseLinked NEok_pFloat) _)
      (NEok_vmerge (NEok_reqFieldVal (NEok_parseLinked NEok_pQuadQ) _)
      (NEok_vmerge (NEok_reqFieldVal (NEok_parseLinked NEok_pFloat) _)
        (NEok_reqFieldVal (NEok_parseLinked NEok_pFloat) _)))))))))))
  all_goals exact NEok_err1 _ _

theorem NEok_parseLayoutSpecification (j : J) : NEok (parseLayoutSpecification j) := by
  unfold parseLayoutSpecification
  split
  · exact NEok_ok _
  · rename_i e1 h1
    split
    · exact NEok_ok _
    · split
      · exact NEok_ok _
      · intro es he
        cases he
        exact errsAppend_ne_left (errsAppend_ne_left (NEok_pStr _ e1 h1))

theorem NEok_parseStackLayout (j : J) : NEok (parseStackLayout j) := by
  cases j
  case obj kvs =>
    exact NEok_withExtra (NEok_map (NEok_vmerge
      (NEok_reqFieldVal (NEok_pLitOf _) _)
      (NEok_reqFieldVal (NEok_pList NEok_parseLayoutSpecification) _)))
  all_goals exact NEok_err1 _ _

theorem NEok_parseViewerState (j : J) : NEok (parseViewerState j) := by
  cases j
  case obj kvs =>
    exact NEok_withExtra (NEok_map (NEok_vmerge
      (NEok_optFieldVal NEok_pStr _)
      (NEok_vmerge (NEok_optFieldVal NEok_pCoordinateSpace _)
      (NEok_vmerge (NEok_optFieldVal (NEok_pDict NEok_pFloat) _)
      (NEok_vmerge (NEok_optFieldVal (NEok_pList NEok_pStr) _)
      (NEok_vmerge (NEok_optFieldVal NEok_pTripleQ _)
      (NEok_vmerge (NEok_optFieldVal NEok_pQuadQ _)
      (NEok_vmerge (NEok_optFieldVal NEok_pFloat _)
      (NEok_vmerge (NEok_optFieldVal NEok_pFloat _)
      (NEok_vmerge (NEok_optFieldVal NEok_pFloat _)
      (NEok_vmerge (NEok_optFieldVal NEok_pFloat _)
      (NEok_vmerge (NEok_optFieldVal NEok_pQuadQ _)
      (NEok_vmerge (NEok_optFieldVal NEok_pBool _)
      (NEok_vmerge (NEok_optFieldVal NEok_pBool _)
      (NEok_vmerge (NEok_optFieldVal NEok_pBool _)
      (NEok_vmerge (NEok_optFieldVal NEok_pBool _)
      (NEok_vmerge (NEok_optFieldVal NEok_pInt _)
      (NEok_vmerge (NEok_optFieldVal NEok_pInt _)
      (NEok_vmerge (NEok_optFieldVal NEok_pInt _)
      (NEok_vmerge (NEok_optFieldVal NEok_pBool _)
      (NEok_vmerge (NEok_reqFieldVal (NEok_pList NEok_parseLayerType) _)
      (NEok_vmerge (NEok_reqFieldVal NEok_parseLayoutSpecification _)
      (NEok_vmerge (NEok_optFieldVal NEok_pStr _)
      (NEok_vmerge (NEok_optFieldVal NEok_pStr _)
      (NEok_vmerge (NEok_optFieldVal NEok_parseSelectedLayerState _)
      (NEok_vmerge (NEok_optFieldVal NEok_parseSidePanelLocation _)
      (NEok_vmerge (NEok_optFieldVal NEok_parseSidePanelLocation _)
      (NEok_vmerge (NEok_optFieldVal NEok_parseSidePanelLocation _)
      (NEok_vmerge (NEok_optFieldVal NEok_pQuadQ _)
        (NEok_optFieldVal (NEok_pDict NEok_pInt) _))))))))))))))))))))))))))))))
  all_goals exact NEok_err1 _ _

/-! ### Concrete documents and states used to settle the claims -/

/-- A minimal image-layer document with the given name. -/
def imgLayerDoc (nm : String) : J :=
  .obj [("type", .str "image"), ("source", .str "precomputed://example"),
    ("name", .str nm)]

/-- The validated state of `imgLayerDoc`. -/
def imgLayerState (nm : String) : LayerType :=
  .image ⟨⟨.inr (.inl "precomputed://example"), nm, none, none, none, none, none,
    none, none, none⟩, none, none, (0.05 : ℚ), none, some 1⟩

/-- A minimal valid viewer-state document. -/
def minViewerDoc : J := .obj [("layers", .arr []), ("layout", .str "4panel")]

/-- The validated state of `minViewerDoc`: defaults filled, everything else
absent. -/
def minViewerState : ViewerState :=
  ⟨none, none, none, none, none, none, none, none, none, none, none,
   some true, some true, some true, some true, none, none, none, some true,
   [], .strv "4panel", none, none, none, none, none, none,
   some ((0 : ℚ), (0 : ℚ), (1 : ℚ), (1 : ℚ)), none⟩

theorem minViewerDoc_parses : parseViewerState minViewerDoc = .ok minViewerState := rfl

/-- The shared minimal base-layer state (`source` and `name` only). -/
def baseStateMin : LayerCommon :=
  ⟨.inr (.inl "precomputed://example"), "n", none, none, none, none, none, none,
    none, none⟩

/-- Minimal segmentation-layer document: required fields plus `type`. -/
def segKvsMin : List (String × J) :=
  [("type", .str "segmentation"), ("source", .str "precomputed://example"),
   ("name", .str "n")]

def segLayerDocMin : J := .obj segKvsMin

/-- The validated state of `segLayerDocMin`: every per-variant default filled. -/
def segLayerStateMin : SegmentationLayer :=
  ⟨baseStateMin, none, none, some true, some (0.5 : ℚ), some 0, some 1, some 1,
    some true, none, some 0, some 1, some 10, some 0, none, none, none, none, none⟩

/-- Minimal annotation-layer document (its required
`linkedSegmentationLayer` and `filterBySegmentation` included). -/
def annLayerDocMin : J :=
  .obj [("type", .str "annotation"), ("source", .str "precomputed://example"),
    ("name", .str "n"), ("linkedSegmentationLayer", .obj []),
    ("filterBySegmentation", .arr [])]

def annLayerStateMin : AnnotationLayer :=
  ⟨baseStateMin, none, none, none, none, [], [], some true, none, none⟩

/-- Minimal mesh-layer document (its required `shader` included). -/
def meshLayerDocMin : J :=
  .obj [("type", .str "mesh"), ("source", .str "precomputed://example"),
    ("name", .str "n"), ("shader", .str "shadercode")]

def meshLayerStateMin : MeshLayer := ⟨baseStateMin, none, "shadercode", none⟩

/-- Minimal new-layer document. -/
def newLayerDocMin : J :=
  .obj [("type", .str "new"), ("source", .str "precomputed://example"),
    ("name", .str "n")]

/-- An otherwise-minimal layer document with the `type` discriminator omitted. -/
def noTypeLayerDoc : J :=
  .obj [("source", .str "precomputed://example"), ("name", .str "n")]

/-! Claim theorems -/

/-- Claim C3: each of the five layer variants validates from a minimal
document containing only its required fields plus the `type` discriminator,
and a layer document omitting `type` fails with the missing-discriminator
error. -/
theorem c3_discriminator_completeness :
    parseLayerType (imgLayerDoc "n") = .ok (imgLayerState "n") ∧
    parseLayerType segLayerDocMin = .ok (.segmentation segLayerStateMin) ∧
    parseLayerType annLayerDocMin = .ok (.annot annLayerStateMin) ∧
    parseLayerType meshLayerDocMin = .ok (.mesh meshLayerStateMin) ∧
    parseLayerType newLayerDocMin = .ok (.newLayer ⟨baseStateMin⟩) ∧
    parseLayerType noTypeLayerDoc =
      .error [⟨["type"], "discriminator type is missing"⟩] :=
  ⟨rfl, rfl, rfl, rfl, rfl, rfl⟩

def rowLit : StackType := ⟨"row", rfl⟩

/-- Claim C4 counterexample: a StackLayout document with an empty children
sequence validates successfully, contradicting the claim that it must fail. -/
theorem c4_counterexample :
    parseStackLayout (.obj [("type", .str "row"), ("children", .arr [])]) =
      .ok ⟨rowLit, []⟩ := rfl

/-- Claim C4 (amended): a StackLayout accepts any children list, including
the empty one — the source declares `children: List[LayoutSpecification]`
with no non-emptiness constraint. -/
theorem c4_amended (t : StackType) (ls : List LayoutSpecification) :
    parseStackLayout (.obj [("type", .str t.val),
      ("children", prList serializeLayoutSpecification ls)]) = .ok ⟨t, ls⟩ := by
  obtain ⟨v, hv⟩ := t
  have hm : v ∈ stackTypeLits := by simpa using hv
  simp +decide [parseStackLayout, getKey, extraErrs, stackLayoutKeys, pLitOf, hm]

/-- Nested StackLayout documents: `nestedStackDoc n` is a StackLayout
nested `n + 1` levels deep with an empty innermost children list. -/
def nestedStackDoc : Nat → J
  | 0 => .obj [("type", .str "row"), ("children", .arr [])]
  | n + 1 => .obj [("type", .str "row"), ("children", .arr [nestedStackDoc n])]

/-- Claim C5 counterexample: a StackLayout nested 5 levels deep fails
validation — `LayoutSpecification` does not include `StackLayout`, so the
claim that such a document validates is false. -/
theorem c5_counterexample :
    (parseStackLayout (nestedStackDoc 4)).toOption = none := rfl

theorem getKey_mem {kvs : List (String × J)} {k : String} {v : J}
    (h : getKey kvs k = some v) : (k, v) ∈ kvs := by
  induction kvs with
  | nil => cases h
  | cons p rest ih =>
    obtain ⟨k0, v0⟩ := p
    by_cases hk : k0 = k
    · subst hk
      rw [getKey, if_pos rfl] at h
      cases h
      simp
    · rw [getKey, if_neg hk] at h
      exact List.mem_cons_of_mem _ (ih h)

/-- Claim C5 (amended): a layout-specification child is a string, a
`LayerGroupViewer`, or a `DataPanelLayout`; any object carrying a
`children` key — as every serialized StackLayout does — is rejected, so a
StackLayout child can never be a StackLayout. -/
theorem c5_amended (kvs : List (String × J)) (jv : J)
    (h : getKey kvs "children" = some jv) :
    (parseLayoutSpecification (.obj kvs)).toOption = none := by
  have hmem : ("children", jv) ∈ kvs := getKey_mem h
  rcases h1 : parseLayerGroupViewer (.obj kvs) with es1 | v1
  · rcases h2 : parseDataPanelLayout (.obj kvs) with es2 | v2
    · simp [parseLayoutSpecification, pStr, err1, h1, h2, Except.toOption]
    · exfalso
      rw [parseDataPanelLayout, withExtra_ok_iff] at h2
      have := extraErrs_eq_nil_iff.mp h2.1 ("children", jv) hmem
      simp [dataPanelLayoutKeys] at this
  · exfalso
    rw [parseLayerGroupViewer, withExtra_ok_iff] at h1
    have := extraErrs_eq_nil_iff.mp h1.1 ("children", jv) hmem
    simp [layerGroupViewerKeys] at this

/-- Witness for `c5_amended` at the claim's own scenario: the inner
StackLayout of a depth-2 nesting is rejected as a layout child. -/
theorem c5_amended_witness :
    (parseLayoutSpecification (.obj [("type", J.str "row"),
      ("children", J.arr [])])).toOption = none :=
  c5_amended [("type", J.str "row"), ("children", J.arr [])] (J.arr []) rfl

/-- A three-axis output coordinate-space document. -/
def threeDimsDoc : J :=
  .obj [("x", .arr [.num 1, .str "nm"]), ("y", .arr [.num 1, .str "nm"]),
    ("z", .arr [.num 1, .str "nm"])]

def threeDims : CoordinateSpace :=
  [("x", .inl (1, "nm")), ("y", .inl (1, "nm")), ("z", .inl (1, "nm"))]

/-- A transform document with the given matrix and three output axes. -/
def cstDocWith (m : List (List ℤ)) : J :=
  .obj [("outputDimensions", threeDimsDoc), ("matrix", prList (prList prInt) m)]

def twoRowMatrix : List (List ℤ) := [[1, 0, 0, 0], [0, 1, 0, 0]]

/-- Claim C6 counterexample: a transform whose matrix has 2 rows against 3
output axes validates successfully — no rank-mismatch error exists. -/
theorem c6_counterexample :
    parseCoordinateSpaceTransform (cstDocWith twoRowMatrix) =
      .ok ⟨threeDims, none, none, twoRowMatrix⟩ ∧
    threeDims.length = 3 ∧ twoRowMatrix.length = 2 :=
  ⟨rfl, rfl, rfl⟩

/-- Claim C6 (amended): the source declares `matrix: List[List[int]]` with
no validator, so a transform accepts every integer matrix — any row count
against the 3 output axes, rectangular or not. -/
theorem c6_amended (m : List (List ℤ)) :
    parseCoordinateSpaceTransform (cstDocWith m) = .ok ⟨threeDims, none, none, m⟩ := by
  have hod : pCoordinateSpace threeDimsDoc = .ok threeDims := rfl
  simp +decide [cstDocWith, parseCoordinateSpaceTransform, getKey, extraErrs,
    coordinateSpaceTransformKeys, hod]

/-- Claim C2: for every document accepted by validation, re-validating the
serialization of the validated state succeeds and yields the same
(deep-equal) state; the serializer (modelled from the spec) omits every
field whose value equals its declared default, in particular the fields the
source document omitted. -/
theorem c2_roundtrip (d : J) (s : ViewerState) (h : parseViewerState d = .ok s) :
    parseViewerState (serializeViewerState s) = .ok s :=
  parseViewerState_serialize s

/-- Witness for `c2_roundtrip` at the minimal viewer document. -/
theorem c2_roundtrip_witness :
    parseViewerState (serializeViewerState minViewerState) = .ok minViewerState :=
  c2_roundtrip minViewerDoc minViewerState minViewerDoc_parses

/-- A `Linked` value document (a `position`), without and with an extra
unrecognized key. -/
def linkedPosDoc : J :=
  .obj [("link", .str "linked"), ("value", .arr [.num 0, .num 0, .num 0])]

def linkedPosDocExtra : J :=
  .obj [("link", .str "linked"), ("value", .arr [.num 0, .num 0, .num 0]),
    ("unrecognized", .bool true)]

/-- A cross-section document around the given `position` document. -/
def crossSectionDocWith (pos : J) : J :=
  .obj [("position", pos),
    ("orientation", .obj [("value", .arr [.num 0, .num 0, .num 0, .num 1])]),
    ("scale", .obj [("value", .num 1)])]

/-- A full viewer-state document whose layout nests the given `position`
document inside a `Linked` shape. -/
def viewerDocWith (pos : J) : J :=
  .obj [("layers", .arr []),
    ("layout", .obj [("type", .str "4panel"),
      ("crossSections", .obj [("a", crossSectionDocWith pos)])])]

def crossSectionStateC1 : CrossSection :=
  ⟨1000, 1000, ⟨some linkedLit, some [0, 0, 0]⟩,
    ⟨some linkedLit, some (0, 0, 0, 1)⟩, ⟨some linkedLit, some 1⟩⟩

/-- The validated state of `viewerDocWith linkedPosDoc`. -/
def dplViewerState : ViewerState :=
  ⟨none, none, none, none, none, none, none, none, none, none, none,
   some true, some true, some true, some true, none, none, none, some true,
   [], .dpl ⟨"4panel", [("a", crossSectionStateC1)], none⟩, none, none, none,
   none, none, none, some ((0 : ℚ), (0 : ℚ), (1 : ℚ), (1 : ℚ)), none⟩

/-- Claim C1 counterexample: adding an extra unrecognized key inside the
nested `Linked` object of an otherwise-valid document does NOT cause
validation to fail — both documents validate to the same state, so no
unknown-field error is raised at that nesting level. -/
theorem c1_counterexample :
    parseViewerState (viewerDocWith linkedPosDocExtra) = .ok dplViewerState ∧
    parseViewerState (viewerDocWith linkedPosDoc) = .ok dplViewerState :=
  ⟨rfl, rfl⟩

theorem getKey_append_ne (kvs : List (String × J)) (k2 k : String) (jv : J)
    (h : k2 ≠ k) : getKey (kvs ++ [(k2, jv)]) k = getKey kvs k := by
  induction kvs with
  | nil => simp [getKey, h]
  | cons p rest ih =>
    obtain ⟨k0, v0⟩ := p
    by_cases hk : k0 = k
    · simp [getKey, hk]
    · simp [getKey, hk, ih]

/-- Claim C1 (amended): shapes derived from `Model` (`Extra.forbid`) reject
an unrecognized key with an extra-field error naming it, but `Linked` — a
`GenericModel` with pydantic's default `Extra.ignore` — silently ignores
unknown keys, so an extra key inside a `Linked` value never causes a
failure. -/
theorem c1_amended :
    (∀ (T : Type) (pT : J → Vres T) (kvs : List (String × J)) (jv : J),
      parseLinked pT (.obj (kvs ++ [("unrecognized", jv)])) =
        parseLinked pT (.obj kvs)) ∧
    parseViewerState (.obj [("layers", .arr []), ("layout", .str "4panel"),
      ("unrecognized", .null)]) =
      .error [⟨["unrecognized"], "extra fields not permitted"⟩] ∧
    parseViewerState (viewerDocWith linkedPosDocExtra) =
      parseViewerState (viewerDocWith linkedPosDoc) := by
  refine ⟨?_, rfl, rfl⟩
  intro T pT kvs jv
  simp +decide [parseLinked, getKey_append_ne]

/-- Claim C7: in a SegmentationLayer document, each defaulted field takes
its per-variant default exactly when the key is entirely absent, and an
explicit null is preserved as `None` rather than replaced by the default
(shown for `colorSeed = 0`, `hideSegmentZero = True`, `selectedAlpha = 0.5`
and `meshRenderScale = 10.0`). -/
theorem c7_defaults (kvs : List (String × J)) (s : SegmentationLayer)
    (h : parseSegmentationLayer (.obj kvs) = .ok s) :
    (getKey kvs "colorSeed" = none → s.colorSeed = some 0) ∧
    (getKey kvs "colorSeed" = some J.null → s.colorSeed = none) ∧
    (getKey kvs "hideSegmentZero" = none → s.hideSegmentZero = some true) ∧
    (getKey kvs "hideSegmentZero" = some J.null → s.hideSegmentZero = none) ∧
    (getKey kvs "selectedAlpha" = none → s.selectedAlpha = some (0.5 : ℚ)) ∧
    (getKey kvs "selectedAlpha" = some J.null → s.selectedAlpha = none) ∧
    (getKey kvs "meshRenderScale" = none → s.meshRenderScale = some 10) ∧
    (getKey kvs "meshRenderScale" = some J.null → s.meshRenderScale = none) := by
  rw [parseSegmentationLayer, withExtra_ok_iff] at h
  obtain ⟨-, h⟩ := h
  rw [vresMap_ok_iff] at h
  obtain ⟨t, hch, hs⟩ := h
  simp only [vmerge_ok_iff] at hch
  obtain ⟨h1, h2, h3, h4, h5, h6, h7, h8, h9, h10, h11, h12, h13, h14, h15,
    h16, h17, h18, h19, h20⟩ := hch
  refine ⟨?_, ?_, ?_, ?_, ?_, ?_, ?_, ?_⟩ <;> intro hk
  · rw [hk, optFieldVal_none] at h12
    injection h12 with h12
    rw [← hs]
    exact h12.symm
  · rw [hk] at h12
    simp only [optFieldVal, J.isNull, if_true] at h12
    injection h12 with h12
    rw [← hs]
    exact h12.symm
  · rw [hk, optFieldVal_none] at h5
    injection h5 with h5
    rw [← hs]
    exact h5.symm
  · rw [hk] at h5
    simp only [optFieldVal, J.isNull, if_true] at h5
    injection h5 with h5
    rw [← hs]
    exact h5.symm
  · rw [hk, optFieldVal_none] at h6
    injection h6 with h6
    rw [← hs]
    exact h6.symm
  · rw [hk] at h6
    simp only [optFieldVal, J.isNull, if_true] at h6
    injection h6 with h6
    rw [← hs]
    exact h6.symm
  · rw [hk, optFieldVal_none] at h14
    injection h14 with h14
    rw [← hs]
    exact h14.symm
  · rw [hk] at h14
    simp only [optFieldVal, J.isNull, if_true] at h14
    injection h14 with h14
    rw [← hs]
    exact h14.symm

/-- Witness for `c7_defaults` at the minimal segmentation-layer document:
the absent `colorSeed` comes out as 0. -/
theorem c7_defaults_witness : segLayerStateMin.colorSeed = some 0 :=
  (c7_defaults segKvsMin segLayerStateMin rfl).1 rfl

/-- Claim C8 counterexample: a bare value of type `T` is rejected by the
`Linked[T]` resolver (with a not-a-valid-dict error) instead of being
accepted as the shorthand the claim describes. -/
theorem c8_counterexample :
    parseLinked pFloat (.num 5) = .error [⟨[], "value is not a valid dict"⟩] := rfl

/-- Claim C8 (amended): the `Linked[T]` resolver accepts only objects.
Given an object without a `link` key it defaults `link` to "linked"; it
fails when `link` is present but not one of the three legal literals; each
of the three literals is accepted; a bare value is always rejected. -/
theorem c8_amended :
    (∀ q : ℚ, parseLinked pFloat (.num q) =
      .error [⟨[], "value is not a valid dict"⟩]) ∧
    parseLinked pFloat (.obj [("value", .num 5)]) = .ok ⟨some linkedLit, some 5⟩ ∧
    parseLinked pFloat (.obj [("link", .str "bogus"), ("value", .num 5)]) =
      .error [⟨["link"], "unexpected literal value"⟩] ∧
    parseLinked pFloat (.obj [("link", .str "unlinked")]) =
      .ok ⟨some ⟨"unlinked", rfl⟩, none⟩ ∧
    parseLinked pFloat (.obj [("link", .str "relative")]) =
      .ok ⟨some ⟨"relative", rfl⟩, none⟩ ∧
    parseLinked pFloat (.obj [("link", .str "linked")]) = .ok ⟨some linkedLit, none⟩ :=
  ⟨fun q => rfl, rfl, rfl, rfl, rfl, rfl⟩

/-- Claim C9: validation of any document returns either a fully valid
ViewerState or a non-empty list of structured errors (never a partial
state, never an empty failure); and errors accumulate across fields — a
document with a malformed `layers` and a missing `layout` reports both,
each located by its field path. -/
theorem c9_total_nonempty_errors :
    (∀ j : J, (∃ s, parseViewerState j = .ok s) ∨
      (∃ es, parseViewerState j = .error es ∧ es ≠ [])) ∧
    parseViewerState (.obj [("layers", .num 5)]) =
      .error [⟨["layers"], "value is not a valid list"⟩,
        ⟨["layout"], "field required"⟩] := by
  constructor
  · intro j
    rcases h : parseViewerState j with es | s
    · exact .inr ⟨es, rfl, NEok_parseViewerState j es h⟩
    · exact .inl ⟨s, rfl⟩
  · rfl

/-- The identifying name of a layer. -/
def layerTypeName : LayerType → String
  | .image l => l.base.name
  | .segmentation l => l.base.name
  | .annot l => l.base.name
  | .mesh l => l.base.name
  | .newLayer l => l.base.name

/-- A viewer state holding two image layers that share the name `n`. -/
def dupStateN (n : String) : ViewerState :=
  ⟨none, none, none, none, none, none, none, none, none, none, none,
   some true, some true, some true, some true, none, none, none, some true,
   [imgLayerState n, imgLayerState n], .strv "4panel", none, none, none, none,
   none, none, some ((0 : ℚ), (0 : ℚ), (1 : ℚ), (1 : ℚ)), none⟩

/-- A document with two identically named layers. -/
def dupViewerDoc : J :=
  .obj [("layers", .arr [imgLayerDoc "a", imgLayerDoc "a"]),
    ("layout", .str "4panel")]

/-- Claim C10 counterexample: a document whose layers sequence contains two
layers with the same name is accepted by validation — layer-name uniqueness
is not enforced. -/
theorem c10_counterexample :
    parseViewerState dupViewerDoc = .ok (dupStateN "a") ∧
    ((dupStateN "a").layers.map layerTypeName) = ["a", "a"] ∧
    ¬ ((dupStateN "a").layers.map layerTypeName).Nodup :=
  ⟨rfl, rfl, by decide⟩

/-- Claim C10 (amended): validation enforces no uniqueness on layer names —
for every name `n`, a viewer state whose two layers are both named `n` is
accepted. -/
theorem c10_amended (n : String) :
    parseViewerState (serializeViewerState (dupStateN n)) = .ok (dupStateN n) ∧
    ((dupStateN n).layers.map layerTypeName) = [n, n] :=
  ⟨parseViewerState_serialize _, rfl⟩

end NG
